import Mathlib

/-!
STC1000+ thermostat firmware: control core.

A shallow embedding of the control core of the STC1000+ firmware
(`src/page0.c`, `src/stc1000p.h`, `src/eepromdata.c`) together with
theorems about it.

Conventions of the embedding (target: SDCC for PIC16F1828):

* `unsigned char` is 8 bits, `int` and `unsigned int` are 16 bits, `long` is 32 bits.
* Unsigned values are natural numbers reduced `% 256` or `% 65536` wherever the
  C value is truncated; signed 16-bit values are integers in `[-32768, 32767]`,
  obtained from the stored bit pattern by `toInt16`, and signed arithmetic wraps
  (two's complement) through `wrap16`.
* Hardware registers and globals become explicit state: the data EEPROM is the
  structure `EEPROM`, the relay latches, the delay countdowns and the two
  indicator bits are the structure `ThermostatState`.
-/

namespace STC1000P

/-! ## Machine integers -/

/-- Signed reading of a 16-bit pattern (conversion `unsigned int` to `int`). -/
def toInt16 (n : Nat) : Int :=
  if n % 65536 < 32768 then ((n % 65536 : Nat) : Int) else ((n % 65536 : Nat) : Int) - 65536

/-- Bit pattern of an integer truncated to 16 bits (conversion to `unsigned int`). -/
def toU16 (x : Int) : Nat := (x % 65536).toNat

/-- Two's complement wrap of an integer result into the range of a 16-bit `int`. -/
def wrap16 (x : Int) : Int := (x + 32768) % 65536 - 32768

/-- The 16-bit signed addition `a + b` of two `int` operands. -/
def add16 (a b : Int) : Int := wrap16 (a + b)

/-- The 16-bit signed subtraction `a - b` of two `int` operands. -/
def sub16 (a b : Int) : Int := wrap16 (a - b)

/-! ## Address schema (`stc1000p.h`) -/

/-- The macro `NO_OF_PROFILES`. -/
def NO_OF_PROFILES : Nat := 5

/-- The enumeration generated from `SET_MENU_DATA(ENUM_VALUES)`. -/
inductive set_menu_enum where
  | hy | hy2 | tc | tc2 | SA | SP | St | dh | cd | hd | rP | Pb | rn
  deriving DecidableEq, Repr

/-- Numeric value of an enumeration constant (position in `SET_MENU_DATA`). -/
def set_menu_enum.toNat : set_menu_enum → Nat
  | .hy => 0 | .hy2 => 1 | .tc => 2 | .tc2 => 3 | .SA => 4 | .SP => 5 | .St => 6
  | .dh => 7 | .cd => 8 | .hd => 9 | .rP => 10 | .Pb => 11 | .rn => 12

/-- The macro `THERMOSTAT_MODE`. -/
def THERMOSTAT_MODE : Nat := NO_OF_PROFILES

/-- The macro `EEADR_PROFILE_SETPOINT(profile, step)`. -/
def EEADR_PROFILE_SETPOINT (profile step : Nat) : Nat :=
  (profile <<< 4) + (profile <<< 2) + (step <<< 1)

/-- The macro `EEADR_PROFILE_DURATION(profile, step)`. -/
def EEADR_PROFILE_DURATION (profile step : Nat) : Nat :=
  EEADR_PROFILE_SETPOINT profile step + 1

/-- The macro `EEADR_SET_MENU`. -/
def EEADR_SET_MENU : Nat := EEADR_PROFILE_SETPOINT NO_OF_PROFILES 0

/-- The macro `EEADR_SET_MENU_ITEM(name)`. -/
def EEADR_SET_MENU_ITEM (name : set_menu_enum) : Nat := EEADR_SET_MENU + name.toNat

/-- The macro `EEADR_POWER_ON`. -/
def EEADR_POWER_ON : Nat := 127

/-! ## Data EEPROM (`eeprom_read_config`, `eeprom_write_config`) -/

/-- The data EEPROM: 256 byte cells (a cell is read through the 8-bit register
`EEDATL`, so only its value `% 256` is ever seen), and the log of the physical
byte writes started so far (cell address, byte), oldest first. -/
structure EEPROM where
  cells : Nat → Nat
  wlog : List (Nat × Nat)

/-- The `do ... while(!(eeprom_address++ & 0x1))` loop of `eeprom_read_config`.
The first argument bounds the number of passes; the loop ends after the pass
made at an odd cell address. -/
def eeprom_read_loop : Nat → EEPROM → Nat → Nat → Nat
  | 0, _, _, data => data
  | fuel + 1, m, eeprom_address, data =>
    let data := (((m.cells eeprom_address % 256) <<< 8) % 65536) ||| (data >>> 8)
    if eeprom_address &&& 1 = 0 then
      eeprom_read_loop fuel m ((eeprom_address + 1) % 256) data
    else
      data

/-- Function `eeprom_read_config`: read one configuration word. The address is an
`unsigned char`; it is doubled (in 8 bits) to get the cell address. -/
def eeprom_read_config (m : EEPROM) (eeprom_address : Nat) : Nat :=
  eeprom_read_loop 2 m ((eeprom_address <<< 1) % 256) 0

/-- The cell holding the low byte of configuration word `a`: the doubled
address `eeprom_address << 1` as both access functions compute it. -/
def cell_lo (a : Nat) : Nat := (a <<< 1) % 256

/-- One physical byte write: the cell takes the byte and the write is logged. -/
def eeprom_commit (m : EEPROM) (address byte : Nat) : EEPROM :=
  { cells := fun c => if c = address then byte else m.cells c
    wlog := m.wlog ++ [(address, byte)] }

/-- The `do ... while(!(eeprom_address++ & 0x01))` loop of `eeprom_write_config`. -/
def eeprom_write_loop : Nat → EEPROM → Nat → Nat → EEPROM
  | 0, m, _, _ => m
  | fuel + 1, m, eeprom_address, data =>
    let m := eeprom_commit m eeprom_address (data % 256)
    let data := data >>> 8
    if eeprom_address &&& 1 = 0 then
      eeprom_write_loop fuel m ((eeprom_address + 1) % 256) data
    else
      m

/-- Function `eeprom_write_config`: store one configuration word, unless the stored
word already equals it. The `unsigned int` parameter is the argument truncated
to 16 bits. -/
def eeprom_write_config (m : EEPROM) (eeprom_address : Nat) (data : Nat) : EEPROM :=
  let data := data % 65536
  if data = eeprom_read_config m eeprom_address then
    m
  else
    eeprom_write_loop 2 m ((eeprom_address <<< 1) % 256) data

/-- The EEPROM whose configuration words are the 16-bit patterns of `words`
(word `a` in cells `2a` low byte, `2a+1` high byte, the layout
`eeprom_write_config` produces); cells past the table are erased (`0xff`). -/
def EEPROM.ofWords (words : List Int) : EEPROM :=
  { cells := fun c =>
      if c / 2 < words.length then (toU16 (words.getD (c / 2) 0) >>> (8 * (c % 2))) % 256
      else 255
    wlog := [] }

/-- One profile of the initial EEPROM image (`eepromdata.c`, Celsius build). -/
def eedata_profile : List Int :=
  [160, 24, 170, 24, 180, 24, 190, 24, 200, 144, 250, 48, 40, 0, 0, 0, 0, 0, 0, 5]

/-- The initial EEPROM data `eedata` (`eepromdata.c`, Celsius build): five
profiles followed by the defaults of `SET_MENU_DATA`. -/
def eedata : List Int :=
  eedata_profile ++ eedata_profile ++ eedata_profile ++ eedata_profile ++ eedata_profile ++
  [5, 50, 0, 0, 0, 200, 0, 0, 5, 2, 0, 0, 5]

/-- The default EEPROM image with the second probe enabled (`Pb` = 1). -/
def eedata_probe2 : EEPROM :=
  eeprom_write_config (EEPROM.ofWords eedata) (EEADR_SET_MENU_ITEM .Pb) 1

/-- The default EEPROM image set to run profile 0 (`rn` = 0) with step index
`St = step` and elapsed duration `dh = hours`. -/
def eedata_running (step hours : Nat) : EEPROM :=
  eeprom_write_config
    (eeprom_write_config
      (eeprom_write_config (EEPROM.ofWords eedata) (EEADR_SET_MENU_ITEM .rn) 0)
      (EEADR_SET_MENU_ITEM .St) step)
    (EEADR_SET_MENU_ITEM .dh) hours

/-- An EEPROM image whose profile 0 has step 0 = (setpoint 200, duration 2) and
step 1 = (setpoint 250, duration 0), set to run profile 0 from step 0 with
elapsed duration 0 and ramping disabled; the other settings are the defaults,
with live setpoint 200. -/
def eedata_two_hour_profile : EEPROM :=
  EEPROM.ofWords
    ([200, 2, 250, 0] ++ List.replicate 96 0 ++ [5, 50, 0, 0, 0, 200, 0, 0, 5, 2, 0, 0, 0])

/-! ## Profile engine (`update_profile`) -/

/-- The 64-substep interpolation loop of `update_profile`; the first argument
is the number of passes left. The accumulator `sp` is a `long`: its magnitude
stays below `32 + 64 * 32768`, far inside 32 bits. -/
def ramp_loop : Nat → Nat → Int → Int → Nat → Int → Int
  | 0, _, _, _, _, sp => sp
  | n + 1, profile_step_dur, profile_next_step_sp, profile_step_sp, t, sp =>
    if t ≥ profile_step_dur then
      ramp_loop n profile_step_dur profile_next_step_sp profile_step_sp
        (t - profile_step_dur) (sp + profile_next_step_sp)
    else
      ramp_loop n profile_step_dur profile_next_step_sp profile_step_sp
        t (sp + profile_step_sp)

/-- Function `update_profile`: called once every hour; advances the running profile. -/
def update_profile (m : EEPROM) : EEPROM :=
  let profile_no := eeprom_read_config m (EEADR_SET_MENU_ITEM .rn) % 256
  if profile_no < THERMOSTAT_MODE then
    let curr_step := eeprom_read_config m (EEADR_SET_MENU_ITEM .St) % 256
    let curr_dur := (eeprom_read_config m (EEADR_SET_MENU_ITEM .dh) + 1) % 65536
    let curr_step := if curr_step > 8 then 8 else curr_step
    let profile_step_eeaddr := EEADR_PROFILE_SETPOINT profile_no curr_step % 256
    let profile_step_dur := eeprom_read_config m (profile_step_eeaddr + 1)
    let profile_next_step_sp := toInt16 (eeprom_read_config m (profile_step_eeaddr + 2))
    if curr_dur ≥ profile_step_dur then
      let m := eeprom_write_config m (EEADR_SET_MENU_ITEM .SP) (toU16 profile_next_step_sp)
      if curr_step = 8 ∨ eeprom_read_config m (profile_step_eeaddr + 3) = 0 then
        eeprom_write_config m (EEADR_SET_MENU_ITEM .rn) THERMOSTAT_MODE
      else
        let curr_dur := 0
        let curr_step := (curr_step + 1) % 256
        let m := eeprom_write_config m (EEADR_SET_MENU_ITEM .St) curr_step
        eeprom_write_config m (EEADR_SET_MENU_ITEM .dh) curr_dur
    else if eeprom_read_config m (EEADR_SET_MENU_ITEM .rP) ≠ 0 then
      let profile_step_sp := toInt16 (eeprom_read_config m profile_step_eeaddr)
      let t := (curr_dur <<< 6) % 65536
      let sp := ramp_loop 64 profile_step_dur profile_next_step_sp profile_step_sp t 32
      let sp := sp >>> (6 : Nat)
      let m := eeprom_write_config m (EEADR_SET_MENU_ITEM .SP) (toU16 sp)
      eeprom_write_config m (EEADR_SET_MENU_ITEM .dh) curr_dur
    else
      eeprom_write_config m (EEADR_SET_MENU_ITEM .dh) curr_dur
  else
    m

/-! ## Thermostat controller (`temperature_control`) -/

/-- The in-memory state `temperature_control` reads and writes: the relay
latches `LATA4` (cool) and `LATA5` (heat), the globals `cooling_delay` and
`heating_delay`, and the indicator bits `led_e.e_cool` and `led_e.e_heat`. -/
structure ThermostatState where
  LATA4 : Bool
  LATA5 : Bool
  cooling_delay : Nat
  heating_delay : Nat
  e_cool : Bool
  e_heat : Bool
  deriving DecidableEq, Repr

/-- The countdown loaded on turn-off from a stored minute value `minutes`:
`d = minutes << 6; d = d - (d >> 4)` in `unsigned int` arithmetic. -/
def delay_reset (minutes : Nat) : Nat :=
  let d := (minutes <<< 6) % 65536
  (d - (d >>> 4)) % 65536

/-- Function `temperature_control`: one control tick. The globals `temperature` and
`temperature2` (the two readings) and the EEPROM are only read. -/
def temperature_control (m : EEPROM) (temperature temperature2 : Int)
    (s : ThermostatState) : ThermostatState :=
  let setpoint := toInt16 (eeprom_read_config m (EEADR_SET_MENU_ITEM .SP))
  let hysteresis2 := toInt16 (eeprom_read_config m (EEADR_SET_MENU_ITEM .hy2))
  let probe2 := eeprom_read_config m (EEADR_SET_MENU_ITEM .Pb) % 256
  let cooling_delay := if s.cooling_delay ≠ 0 then s.cooling_delay - 1 else s.cooling_delay
  let heating_delay := if s.heating_delay ≠ 0 then s.heating_delay - 1 else s.heating_delay
  let e_cool := !s.LATA4
  let e_heat := !s.LATA5
  if (s.LATA4 = true ∧ (temperature ≤ setpoint ∨
        (probe2 ≠ 0 ∧ temperature2 < sub16 setpoint hysteresis2))) ∨
      (s.LATA5 = true ∧ (temperature ≥ setpoint ∨
        (probe2 ≠ 0 ∧ temperature2 > add16 setpoint hysteresis2))) then
    { LATA4 := false
      LATA5 := false
      cooling_delay := delay_reset (eeprom_read_config m (EEADR_SET_MENU_ITEM .cd))
      heating_delay := delay_reset (eeprom_read_config m (EEADR_SET_MENU_ITEM .hd))
      e_cool := e_cool
      e_heat := e_heat }
  else if s.LATA4 = false ∧ s.LATA5 = false then
    let hysteresis := toInt16 (eeprom_read_config m (EEADR_SET_MENU_ITEM .hy))
    let hysteresis2 := hysteresis2 >>> (2 : Nat)
    if temperature > add16 setpoint hysteresis ∧
        (probe2 = 0 ∨ temperature2 ≥ sub16 setpoint hysteresis2) then
      if cooling_delay ≠ 0 then
        { LATA4 := s.LATA4, LATA5 := s.LATA5
          cooling_delay := cooling_delay, heating_delay := heating_delay
          e_cool := xor e_cool (decide (cooling_delay &&& 1 = 1)), e_heat := e_heat }
      else
        { LATA4 := true, LATA5 := s.LATA5
          cooling_delay := cooling_delay, heating_delay := heating_delay
          e_cool := e_cool, e_heat := e_heat }
    else if temperature < sub16 setpoint hysteresis ∧
        (probe2 = 0 ∨ temperature2 ≤ add16 setpoint hysteresis2) then
      if heating_delay ≠ 0 then
        { LATA4 := s.LATA4, LATA5 := s.LATA5
          cooling_delay := cooling_delay, heating_delay := heating_delay
          e_cool := e_cool, e_heat := xor e_heat (decide (heating_delay &&& 1 = 1)) }
      else
        { LATA4 := s.LATA4, LATA5 := true
          cooling_delay := cooling_delay, heating_delay := heating_delay
          e_cool := e_cool, e_heat := e_heat }
    else
      { LATA4 := s.LATA4, LATA5 := s.LATA5
        cooling_delay := cooling_delay, heating_delay := heating_delay
        e_cool := e_cool, e_heat := e_heat }
  else
    { LATA4 := s.LATA4, LATA5 := s.LATA5
      cooling_delay := cooling_delay, heating_delay := heating_delay
      e_cool := e_cool, e_heat := e_heat }

/-- A run of control ticks, one per pair of readings `(temperature, temperature2)`
in the list, over an unchanged EEPROM and with no other writer of the state. -/
def control_ticks (m : EEPROM) : List (Int × Int) → ThermostatState → ThermostatState
  | [], s => s
  | r :: rest, s => control_ticks m rest (temperature_control m r.1 r.2 s)

/-- The EEPROM after `n` successive hourly invocations of `update_profile`. -/
def hourly_updates : Nat → EEPROM → EEPROM
  | 0, m => m
  | n + 1, m => hourly_updates n (update_profile m)

/-! ## Temperature sampler (`read_ad`, `ad_to_temp`, `check_ad_range`) -/

/-- The macro `AD_FILTER_SHIFT`. -/
def AD_FILTER_SHIFT : Nat := 6

/-- The calibration table `ad_lookup` (Celsius build): the temperature, in tenths
of a degree, for each value of the upper 5 bits of the filtered AD value. -/
def ad_lookup : List Int :=
  [0, -486, -355, -270, -205, -151, -104, -61, -21, 16, 51, 85, 119, 152, 184, 217, 250, 284,
   318, 354, 391, 431, 473, 519, 569, 624, 688, 763, 856, 977, 1154, 1482]

/-- Function `read_ad`: the filter update. `adfilter` is the `unsigned int`
accumulator, `ADRESH` and `ADRESL` are the two 8-bit result registers of the
converter, read once the conversion has ended (the wait `while(ADGO)` is the
hardware's part); the sum is an `unsigned int`. -/
def read_ad (adfilter ADRESH ADRESL : Nat) : Nat :=
  ((adfilter - (adfilter >>> AD_FILTER_SHIFT))
    + ((((ADRESH % 256) <<< 8) % 65536) ||| (ADRESL % 256))) % 65536

/-- The interpolation loop of `ad_to_temp`: the first argument is the number of
passes left, `i` the loop counter (it runs from 0 to 63, far inside its 8 bits).
A table element is read only in the pass that adds it; an index outside the
32-entry table has no value to give and ends the computation with `none`. -/
def ad_to_temp_loop : Nat → Nat → Nat → Nat → Int → Option Int
  | 0, _, _, _, temp => some temp
  | n + 1, i, a, b, temp =>
    if a ≤ i then
      match ad_lookup[b]? with
      | some v => ad_to_temp_loop n (i + 1) a b (temp + v)
      | none => none
    else
      match ad_lookup[b + 1]? with
      | some v => ad_to_temp_loop n (i + 1) a b (temp + v)
      | none => none

/-- Function `ad_to_temp`: the temperature, in tenths of a degree, for a
filtered AD value; `none` when a pass reads outside `ad_lookup`. The `long`
sum shifted right by 6 is returned as an `int`. -/
def ad_to_temp (adfilter : Nat) : Option Int :=
  let a := (adfilter >>> (AD_FILTER_SHIFT - 1)) &&& 0x3f
  let b := (adfilter >>> (AD_FILTER_SHIFT + 5)) &&& 0x1f
  match ad_to_temp_loop 64 0 a b 32 with
  | some temp => some (wrap16 (temp >>> (6 : Nat)))
  | none => none

/-- The macro `check_ad_range(ad_value)`: the sensor fault test. -/
def check_ad_range (ad_value : Nat) : Bool :=
  decide ((ad_value >>> (AD_FILTER_SHIFT + 2)) % 256 ≥ 248) ||
    decide ((ad_value >>> (AD_FILTER_SHIFT + 2)) % 256 ≤ 8)

/-- An EEPROM image whose profile 0 has step 0 = (setpoint 100, duration 4) and
step 1 = (setpoint 200, duration 4), set to run profile 0 from step 0 with
elapsed duration `hours` and ramping enabled (`rP` = 1); the other settings are
the defaults. -/
def eedata_ramp (hours : Int) : EEPROM :=
  EEPROM.ofWords
    ([100, 4, 200, 4] ++ List.replicate 96 0
      ++ [5, 50, 0, 0, 0, 100, 0, hours, 5, 2, 1, 0, 0])

/-! ## Setpoint alarm (`main`, `case 4`) -/

/-- The setpoint-alarm block of `main` (`case 4` of the 16 Hz switch): the value
of `flags.setpoint_alarm` after the block, from the EEPROM, the global
`temperature` and the value of the flag before the block. The difference
`temperature - eeprom_read_config(...)` is formed in `unsigned int` and read back
as an `int`; the two negations are 16-bit. -/
def main_setpoint_alarm (m : EEPROM) (temperature : Int) (setpoint_alarm : Bool) : Bool :=
  let sa := toInt16 (eeprom_read_config m (EEADR_SET_MENU_ITEM .SA))
  if sa ≠ 0 then
    let diff := toInt16
      ((toU16 temperature + 65536 - eeprom_read_config m (EEADR_SET_MENU_ITEM .SP)) % 65536)
    let diff := if diff < 0 then wrap16 (-diff) else diff
    if sa < 0 then
      let sa := wrap16 (-sa)
      decide (diff ≤ sa)
    else
      decide (diff ≥ sa)
  else
    setpoint_alarm

/-! ## Limits and the list of settings (`stc1000p.h`, Celsius build) -/

/-- The macro `TEMP_MIN`. -/
def TEMP_MIN : Int := -400

/-- The macro `TEMP_MAX`. -/
def TEMP_MAX : Int := 1400

/-- The names of `SET_MENU_DATA`, in the order of the table. -/
def SET_MENU_DATA : List set_menu_enum :=
  [.hy, .hy2, .tc, .tc2, .SA, .SP, .St, .dh, .cd, .hd, .rP, .Pb, .rn]

/-! ## The both-relays-off decision, worded as in the specification -/

/-- The control tick with the both-relays-off decision as section 4.3 of the
specification words it: cooling eligibility and heating eligibility are
evaluated independently of each other, and each one, when it holds, either
flips its flash indicator (countdown nonzero) or energizes its relay (countdown
zero). The turn-off branch, the decrements and the two eligibility conditions
themselves (with the probe-2 band the code computes) are those of
`temperature_control`. -/
def temperature_control_independent (m : EEPROM) (temperature temperature2 : Int)
    (s : ThermostatState) : ThermostatState :=
  let setpoint := toInt16 (eeprom_read_config m (EEADR_SET_MENU_ITEM .SP))
  let hysteresis2 := toInt16 (eeprom_read_config m (EEADR_SET_MENU_ITEM .hy2))
  let probe2 := eeprom_read_config m (EEADR_SET_MENU_ITEM .Pb) % 256
  let cooling_delay := if s.cooling_delay ≠ 0 then s.cooling_delay - 1 else s.cooling_delay
  let heating_delay := if s.heating_delay ≠ 0 then s.heating_delay - 1 else s.heating_delay
  let e_cool := !s.LATA4
  let e_heat := !s.LATA5
  if (s.LATA4 = true ∧ (temperature ≤ setpoint ∨
        (probe2 ≠ 0 ∧ temperature2 < sub16 setpoint hysteresis2))) ∨
      (s.LATA5 = true ∧ (temperature ≥ setpoint ∨
        (probe2 ≠ 0 ∧ temperature2 > add16 setpoint hysteresis2))) then
    { LATA4 := false
      LATA5 := false
      cooling_delay := delay_reset (eeprom_read_config m (EEADR_SET_MENU_ITEM .cd))
      heating_delay := delay_reset (eeprom_read_config m (EEADR_SET_MENU_ITEM .hd))
      e_cool := e_cool
      e_heat := e_heat }
  else if s.LATA4 = false ∧ s.LATA5 = false then
    let hysteresis := toInt16 (eeprom_read_config m (EEADR_SET_MENU_ITEM .hy))
    let hysteresis2 := hysteresis2 >>> (2 : Nat)
    let cooling_eligible : Bool := decide (temperature > add16 setpoint hysteresis ∧
        (probe2 = 0 ∨ temperature2 ≥ sub16 setpoint hysteresis2))
    let heating_eligible : Bool := decide (temperature < sub16 setpoint hysteresis ∧
        (probe2 = 0 ∨ temperature2 ≤ add16 setpoint hysteresis2))
    { LATA4 := if cooling_eligible = true ∧ cooling_delay = 0 then true else s.LATA4
      LATA5 := if heating_eligible = true ∧ heating_delay = 0 then true else s.LATA5
      cooling_delay := cooling_delay
      heating_delay := heating_delay
      e_cool := if cooling_eligible = true ∧ cooling_delay ≠ 0 then
          xor e_cool (decide (cooling_delay &&& 1 = 1)) else e_cool
      e_heat := if heating_eligible = true ∧ heating_delay ≠ 0 then
          xor e_heat (decide (heating_delay &&& 1 = 1)) else e_heat }
  else
    { LATA4 := s.LATA4, LATA5 := s.LATA5
      cooling_delay := cooling_delay, heating_delay := heating_delay
      e_cool := e_cool, e_heat := e_heat }

/-! ## Register accesses of `eeprom_write_config` -/

set_option maxRecDepth 100000

/-! ## Lemmas on the EEPROM access functions -/

theorem byte_pair_or (lo hi : Nat) (hlo : lo < 256) (hhi : hi < 256) :
    ((hi <<< 8) % 65536) ||| ((((lo <<< 8) % 65536) ||| (0 >>> 8)) >>> 8) = lo + 256 * hi := by
  have h1 : (lo <<< 8) % 65536 = 256 * lo := by
    rw [Nat.shiftLeft_eq]; omega
  have h2 : (hi <<< 8) % 65536 = 2 ^ 8 * hi := by
    rw [Nat.shiftLeft_eq]; omega
  rw [h1, h2, Nat.zero_shiftRight, Nat.or_zero, Nat.shiftRight_eq_div_pow]
  have h3 : 256 * lo / 2 ^ 8 = lo := by omega
  rw [h3, ← Nat.mul_add_lt_is_or (by simpa using hlo) hi]
  omega

theorem eeprom_read_loop_even (m : EEPROM) (c : Nat) (hc : c % 2 = 0) :
    eeprom_read_loop 2 m c 0 = m.cells c % 256 + 256 * (m.cells ((c + 1) % 256) % 256) := by
  have hodd : ((c + 1) % 256) % 2 = 1 := by omega
  simp only [eeprom_read_loop, Nat.and_one_is_mod, hc, hodd, if_true, if_false]
  simp only [one_ne_zero, if_false]
  exact byte_pair_or _ _ (Nat.mod_lt _ (by norm_num)) (Nat.mod_lt _ (by norm_num))

/-- From an even cell address the read loop leaves through its exit test on the
second pass: any larger bound on the passes gives the same word. -/
theorem eeprom_read_loop_fuel (m : EEPROM) (c fuel : Nat) (hc : c % 2 = 0) :
    eeprom_read_loop (fuel + 2) m c 0 = eeprom_read_loop 2 m c 0 := by
  have hodd : ((c + 1) % 256) % 2 = 1 := by omega
  simp only [eeprom_read_loop, Nat.and_one_is_mod, hc, hodd, if_true, if_false]
  simp only [one_ne_zero, if_false]

/-- From an even cell address the write loop leaves through its exit test on the
second pass: any larger bound on the passes gives the same EEPROM. -/
theorem eeprom_write_loop_fuel (m : EEPROM) (c data fuel : Nat) (hc : c % 2 = 0) :
    eeprom_write_loop (fuel + 2) m c data = eeprom_write_loop 2 m c data := by
  have hodd : ((c + 1) % 256) % 2 = 1 := by omega
  simp only [eeprom_write_loop, Nat.and_one_is_mod, hc, hodd, if_true, if_false]
  simp only [one_ne_zero, if_false]

theorem cell_lo_eq (a : Nat) : cell_lo a = 2 * (a % 128) := by
  unfold cell_lo; rw [Nat.shiftLeft_eq]; omega

theorem eeprom_read_config_eq (m : EEPROM) (a : Nat) :
    eeprom_read_config m a
      = m.cells (cell_lo a) % 256 + 256 * (m.cells (cell_lo a + 1) % 256) := by
  have h := cell_lo_eq a
  unfold eeprom_read_config
  have e : (a <<< 1) % 256 = cell_lo a := rfl
  rw [e, eeprom_read_loop_even m _ (by omega)]
  have : (cell_lo a + 1) % 256 = cell_lo a + 1 := by omega
  rw [this]

theorem eeprom_read_config_lt (m : EEPROM) (a : Nat) : eeprom_read_config m a < 65536 := by
  rw [eeprom_read_config_eq]; omega

theorem eeprom_write_loop_even (m : EEPROM) (c data : Nat) (hc : c % 2 = 0) :
    eeprom_write_loop 2 m c data
      = eeprom_commit (eeprom_commit m c (data % 256)) ((c + 1) % 256) ((data >>> 8) % 256) := by
  have hodd : ((c + 1) % 256) % 2 = 1 := by omega
  simp only [eeprom_write_loop, Nat.and_one_is_mod, hc, hodd, if_true, if_false]
  simp only [one_ne_zero, if_false]

theorem eeprom_write_config_of_eq (m : EEPROM) (a v : Nat)
    (h : v % 65536 = eeprom_read_config m a) : eeprom_write_config m a v = m := by
  unfold eeprom_write_config; simp only [h, if_true]

theorem eeprom_write_config_of_ne (m : EEPROM) (a v : Nat)
    (h : v % 65536 ≠ eeprom_read_config m a) :
    eeprom_write_config m a v
      = eeprom_commit (eeprom_commit m (cell_lo a) (v % 65536 % 256)) (cell_lo a + 1)
          (((v % 65536) >>> 8) % 256) := by
  have hl := cell_lo_eq a
  unfold eeprom_write_config
  simp only [h, if_false]
  have e : (a <<< 1) % 256 = cell_lo a := rfl
  rw [e, eeprom_write_loop_even _ _ _ (by omega)]
  have : (cell_lo a + 1) % 256 = cell_lo a + 1 := by omega
  rw [this]

theorem eeprom_write_config_cells_other (m : EEPROM) (a v c : Nat)
    (h0 : c ≠ cell_lo a) (h1 : c ≠ cell_lo a + 1) :
    (eeprom_write_config m a v).cells c = m.cells c := by
  by_cases h : v % 65536 = eeprom_read_config m a
  · rw [eeprom_write_config_of_eq m a v h]
  · rw [eeprom_write_config_of_ne m a v h]
    simp only [eeprom_commit, h0, h1, if_false]

theorem eeprom_read_write_same (m : EEPROM) (a v : Nat) :
    eeprom_read_config (eeprom_write_config m a v) a = v % 65536 := by
  by_cases h : v % 65536 = eeprom_read_config m a
  · rw [eeprom_write_config_of_eq m a v h, h]
  · rw [eeprom_write_config_of_ne m a v h, eeprom_read_config_eq]
    simp only [eeprom_commit, if_true]
    have : cell_lo a ≠ cell_lo a + 1 := by omega
    simp only [this, if_false, Nat.shiftRight_eq_div_pow]
    omega

theorem eeprom_read_congr (m m' : EEPROM) (a : Nat)
    (h0 : m'.cells (cell_lo a) = m.cells (cell_lo a))
    (h1 : m'.cells (cell_lo a + 1) = m.cells (cell_lo a + 1)) :
    eeprom_read_config m' a = eeprom_read_config m a := by
  rw [eeprom_read_config_eq, eeprom_read_config_eq, h0, h1]

theorem eeprom_read_write_other (m : EEPROM) (a b v : Nat) (h : a % 128 ≠ b % 128) :
    eeprom_read_config (eeprom_write_config m a v) b = eeprom_read_config m b := by
  have ha := cell_lo_eq a
  have hb := cell_lo_eq b
  apply eeprom_read_congr
  · apply eeprom_write_config_cells_other <;> omega
  · apply eeprom_write_config_cells_other <;> omega

/-! ## Lemmas on one control tick -/

theorem dec_eq_pred (n : Nat) : (if n ≠ 0 then n - 1 else n) = n - 1 := by
  split_ifs <;> omega

theorem tick_turn_off (m : EEPROM) (temperature temperature2 : Int) (s : ThermostatState)
    (h : (s.LATA4 = true ∧ (temperature ≤ toInt16 (eeprom_read_config m (EEADR_SET_MENU_ITEM .SP)) ∨
            (eeprom_read_config m (EEADR_SET_MENU_ITEM .Pb) % 256 ≠ 0 ∧
              temperature2 < sub16 (toInt16 (eeprom_read_config m (EEADR_SET_MENU_ITEM .SP)))
                (toInt16 (eeprom_read_config m (EEADR_SET_MENU_ITEM .hy2)))))) ∨
         (s.LATA5 = true ∧ (temperature ≥ toInt16 (eeprom_read_config m (EEADR_SET_MENU_ITEM .SP)) ∨
            (eeprom_read_config m (EEADR_SET_MENU_ITEM .Pb) % 256 ≠ 0 ∧
              temperature2 > add16 (toInt16 (eeprom_read_config m (EEADR_SET_MENU_ITEM .SP)))
                (toInt16 (eeprom_read_config m (EEADR_SET_MENU_ITEM .hy2))))))) :
    temperature_control m temperature temperature2 s =
      { LATA4 := false, LATA5 := false
        cooling_delay := delay_reset (eeprom_read_config m (EEADR_SET_MENU_ITEM .cd))
        heating_delay := delay_reset (eeprom_read_config m (EEADR_SET_MENU_ITEM .hd))
        e_cool := !s.LATA4, e_heat := !s.LATA5 } := by
  unfold temperature_control
  simp only [h, if_true]

theorem tick_no_turn_off_delays (m : EEPROM) (temperature temperature2 : Int)
    (s : ThermostatState)
    (h : ¬ ((s.LATA4 = true ∧ (temperature ≤ toInt16 (eeprom_read_config m (EEADR_SET_MENU_ITEM .SP)) ∨
            (eeprom_read_config m (EEADR_SET_MENU_ITEM .Pb) % 256 ≠ 0 ∧
              temperature2 < sub16 (toInt16 (eeprom_read_config m (EEADR_SET_MENU_ITEM .SP)))
                (toInt16 (eeprom_read_config m (EEADR_SET_MENU_ITEM .hy2)))))) ∨
         (s.LATA5 = true ∧ (temperature ≥ toInt16 (eeprom_read_config m (EEADR_SET_MENU_ITEM .SP)) ∨
            (eeprom_read_config m (EEADR_SET_MENU_ITEM .Pb) % 256 ≠ 0 ∧
              temperature2 > add16 (toInt16 (eeprom_read_config m (EEADR_SET_MENU_ITEM .SP)))
                (toInt16 (eeprom_read_config m (EEADR_SET_MENU_ITEM .hy2)))))))) :
    (temperature_control m temperature temperature2 s).cooling_delay = s.cooling_delay - 1 ∧
    (temperature_control m temperature temperature2 s).heating_delay = s.heating_delay - 1 := by
  unfold temperature_control
  simp only [h, if_false, dec_eq_pred]
  split_ifs <;> exact ⟨rfl, rfl⟩

/-- What a tick can do to the cool relay and its countdown. -/
theorem tick_cool (m : EEPROM) (temperature temperature2 : Int) (s : ThermostatState) :
    ((temperature_control m temperature temperature2 s).LATA4 = true →
        s.LATA4 = true ∨
          (s.cooling_delay ≤ 1 ∧
            (temperature_control m temperature temperature2 s).cooling_delay = 0)) ∧
    ((temperature_control m temperature temperature2 s).cooling_delay
        = delay_reset (eeprom_read_config m (EEADR_SET_MENU_ITEM .cd)) ∨
     (temperature_control m temperature temperature2 s).cooling_delay = s.cooling_delay - 1) := by
  rcases s with ⟨c, h, cd, hd, ec, eh⟩
  unfold temperature_control
  simp only [dec_eq_pred]
  split_ifs <;> simp_all
  all_goals omega

/-- What a tick can do to the heat relay and its countdown. -/
theorem tick_heat (m : EEPROM) (temperature temperature2 : Int) (s : ThermostatState) :
    ((temperature_control m temperature temperature2 s).LATA5 = true →
        s.LATA5 = true ∨
          (s.heating_delay ≤ 1 ∧
            (temperature_control m temperature temperature2 s).heating_delay = 0)) ∧
    ((temperature_control m temperature temperature2 s).heating_delay
        = delay_reset (eeprom_read_config m (EEADR_SET_MENU_ITEM .hd)) ∨
     (temperature_control m temperature temperature2 s).heating_delay = s.heating_delay - 1) := by
  rcases s with ⟨c, h, cd, hd, ec, eh⟩
  unfold temperature_control
  simp only [dec_eq_pred]
  split_ifs <;> simp_all
  all_goals omega

/-- A relay that a tick switches off was switched off by the turn-off branch,
which leaves both relays off and reloads both countdowns. -/
theorem tick_deactivates (m : EEPROM) (temperature temperature2 : Int) (s : ThermostatState)
    (h : (s.LATA4 = true ∧ (temperature_control m temperature temperature2 s).LATA4 = false) ∨
         (s.LATA5 = true ∧ (temperature_control m temperature temperature2 s).LATA5 = false)) :
    (temperature_control m temperature temperature2 s).LATA4 = false ∧
    (temperature_control m temperature temperature2 s).LATA5 = false ∧
    (temperature_control m temperature temperature2 s).cooling_delay
        = delay_reset (eeprom_read_config m (EEADR_SET_MENU_ITEM .cd)) ∧
    (temperature_control m temperature temperature2 s).heating_delay
        = delay_reset (eeprom_read_config m (EEADR_SET_MENU_ITEM .hd)) := by
  rcases s with ⟨c, h, cd, hd, ec, eh⟩
  revert h
  unfold temperature_control
  simp only [dec_eq_pred]
  split_ifs <;> simp_all

theorem delay_reset_of_le (minutes : Nat) (h : minutes ≤ 1023) :
    delay_reset minutes = 60 * minutes := by
  have h1 : (minutes <<< 6) % 65536 = 64 * minutes := by
    rw [Nat.shiftLeft_eq]; omega
  have h2 : (64 * minutes) >>> 4 = 4 * minutes := by
    rw [Nat.shiftRight_eq_div_pow]; omega
  unfold delay_reset
  simp only [h1, h2]
  omega

theorem cool_stays_off (m : EEPROM) (rs : List (Int × Int)) :
    ∀ s : ThermostatState, s.LATA4 = false → rs.length < s.cooling_delay →
      rs.length < delay_reset (eeprom_read_config m (EEADR_SET_MENU_ITEM .cd)) →
      (control_ticks m rs s).LATA4 = false := by
  induction rs with
  | nil => intro s h _ _; exact h
  | cons r rest ih =>
    intro s h hlt hD
    simp only [List.length_cons] at hlt hD
    obtain ⟨hon, hdel⟩ := tick_cool m r.1 r.2 s
    apply ih (temperature_control m r.1 r.2 s)
    · cases hr : (temperature_control m r.1 r.2 s).LATA4
      · rfl
      · rcases hon hr with h' | ⟨h', _⟩
        · rw [h] at h'; exact absurd h' (by decide)
        · omega
    · rcases hdel with e | e <;> omega
    · omega

theorem heat_stays_off (m : EEPROM) (rs : List (Int × Int)) :
    ∀ s : ThermostatState, s.LATA5 = false → rs.length < s.heating_delay →
      rs.length < delay_reset (eeprom_read_config m (EEADR_SET_MENU_ITEM .hd)) →
      (control_ticks m rs s).LATA5 = false := by
  induction rs with
  | nil => intro s h _ _; exact h
  | cons r rest ih =>
    intro s h hlt hD
    simp only [List.length_cons] at hlt hD
    obtain ⟨hon, hdel⟩ := tick_heat m r.1 r.2 s
    apply ih (temperature_control m r.1 r.2 s)
    · cases hr : (temperature_control m r.1 r.2 s).LATA5
      · rfl
      · rcases hon hr with h' | ⟨h', _⟩
        · rw [h] at h'; exact absurd h' (by decide)
        · omega
    · rcases hdel with e | e <;> omega
    · omega

/-! ## Thermostat controller: theorems -/

/-- C1: for every starting state (also one with both relays on), every EEPROM
content and every pair of readings, after one tick of `temperature_control` the
cool relay `LATA4` and the heat relay `LATA5` are not both on. -/
theorem relays_not_both_on (m : EEPROM) (temperature temperature2 : Int)
    (s : ThermostatState) :
    ((temperature_control m temperature temperature2 s).LATA4 &&
      (temperature_control m temperature temperature2 s).LATA5) = false := by
  rcases s with ⟨c, h, cd, hd, ec, eh⟩
  have htot := le_total temperature (toInt16 (eeprom_read_config m (EEADR_SET_MENU_ITEM .SP)))
  unfold temperature_control
  cases c <;> cases h <;> simp <;> split_ifs <;> simp_all <;> omega

/-- C2: if cooling is on and (reading1 ≤ setpoint, or probe 2 is enabled and
reading2 < setpoint − hysteresis2), or heating is on and (reading1 ≥ setpoint, or
probe 2 is enabled and reading2 > setpoint + hysteresis2), then after the tick
both relays are off and each countdown equals `(x << 6) − ((x << 6) >> 4)` in
16-bit unsigned arithmetic for its stored minute value `x` (`cd`, `hd`). Setpoint
and hysteresis2 are the stored words read as `int`, their sum and difference are
the 16-bit ones the comparison uses. -/
theorem turn_off_resets_delays (m : EEPROM) (temperature temperature2 : Int)
    (s : ThermostatState) (setpoint hysteresis2 : Int) (probe2 cd hd : Nat)
    (hsp : setpoint = toInt16 (eeprom_read_config m (EEADR_SET_MENU_ITEM .SP)))
    (hhy2 : hysteresis2 = toInt16 (eeprom_read_config m (EEADR_SET_MENU_ITEM .hy2)))
    (hpb : probe2 = eeprom_read_config m (EEADR_SET_MENU_ITEM .Pb) % 256)
    (hcd : cd = eeprom_read_config m (EEADR_SET_MENU_ITEM .cd))
    (hhd : hd = eeprom_read_config m (EEADR_SET_MENU_ITEM .hd))
    (h : (s.LATA4 = true ∧ (temperature ≤ setpoint ∨
            (probe2 ≠ 0 ∧ temperature2 < sub16 setpoint hysteresis2))) ∨
         (s.LATA5 = true ∧ (temperature ≥ setpoint ∨
            (probe2 ≠ 0 ∧ temperature2 > add16 setpoint hysteresis2)))) :
    (temperature_control m temperature temperature2 s).LATA4 = false ∧
    (temperature_control m temperature temperature2 s).LATA5 = false ∧
    (temperature_control m temperature temperature2 s).cooling_delay
      = ((cd <<< 6) % 65536 - (((cd <<< 6) % 65536) >>> 4)) % 65536 ∧
    (temperature_control m temperature temperature2 s).heating_delay
      = ((hd <<< 6) % 65536 - (((hd <<< 6) % 65536) >>> 4)) % 65536 := by
  subst hsp hhy2 hpb hcd hhd
  rw [tick_turn_off m temperature temperature2 s h]
  exact ⟨rfl, rfl, rfl, rfl⟩

/-- Witness for C2 on the default EEPROM image (setpoint 200, `cd` 5, `hd` 2):
cooling is on and reading1 = 150 ≤ 200. -/
theorem turn_off_resets_delays_witness :
    (temperature_control (EEPROM.ofWords eedata) 150 0 ⟨true, false, 7, 0, false, true⟩).LATA4
        = false ∧
    (temperature_control (EEPROM.ofWords eedata) 150 0 ⟨true, false, 7, 0, false, true⟩).LATA5
        = false ∧
    (temperature_control (EEPROM.ofWords eedata) 150 0
        ⟨true, false, 7, 0, false, true⟩).cooling_delay
      = ((5 <<< 6) % 65536 - (((5 <<< 6) % 65536) >>> 4)) % 65536 ∧
    (temperature_control (EEPROM.ofWords eedata) 150 0
        ⟨true, false, 7, 0, false, true⟩).heating_delay
      = ((2 <<< 6) % 65536 - (((2 <<< 6) % 65536) >>> 4)) % 65536 :=
  turn_off_resets_delays (EEPROM.ofWords eedata) 150 0 ⟨true, false, 7, 0, false, true⟩
    200 50 0 5 2 (by decide) (by decide) (by decide) (by decide) (by decide)
    (Or.inl ⟨rfl, Or.inl (by decide)⟩)

/-- C3 (evaluation at the failing input): with setpoint 200, hysteresis 5,
hysteresis2 50 and probe 2 enabled, both relays off and both countdowns 0, the
readings 206 and 180 satisfy `206 > 200 + 5` and `180 ≥ 200 − 50/2`, yet the tick
leaves the cool relay off: the band the code compares with is `50 >> 2 = 12`,
and `180 < 200 − 12`. -/
theorem cool_band_at_failing_input :
    toInt16 (eeprom_read_config eedata_probe2 (EEADR_SET_MENU_ITEM .SP)) = 200 ∧
    toInt16 (eeprom_read_config eedata_probe2 (EEADR_SET_MENU_ITEM .hy)) = 5 ∧
    toInt16 (eeprom_read_config eedata_probe2 (EEADR_SET_MENU_ITEM .hy2)) = 50 ∧
    eeprom_read_config eedata_probe2 (EEADR_SET_MENU_ITEM .Pb) % 256 = 1 ∧
    ((206 : Int) > 200 + 5 ∧ (180 : Int) ≥ 200 - 50 / 2) ∧
    temperature_control eedata_probe2 206 180 ⟨false, false, 0, 0, true, true⟩
      = ⟨false, false, 0, 0, true, true⟩ ∧
    temperature_control eedata_probe2 206 188 ⟨false, false, 0, 0, true, true⟩
      = ⟨true, false, 0, 0, true, true⟩ := by
  decide

/-- C4 (counterexample): on the default EEPROM image (setpoint 200, hysteresis 5,
probe 2 disabled), with both relays off and reading1 = 206, a tick that begins
with `cooling_delay = 1` ends with the cool relay on. -/
theorem cool_engages_from_delay_one :
    toInt16 (eeprom_read_config (EEPROM.ofWords eedata) (EEADR_SET_MENU_ITEM .SP)) = 200 ∧
    toInt16 (eeprom_read_config (EEPROM.ofWords eedata) (EEADR_SET_MENU_ITEM .hy)) = 5 ∧
    eeprom_read_config (EEPROM.ofWords eedata) (EEADR_SET_MENU_ITEM .Pb) % 256 = 0 ∧
    ¬ ((temperature_control (EEPROM.ofWords eedata) 206 0
          ⟨false, false, 1, 0, true, true⟩).LATA4 = true ↔
        (⟨false, false, 1, 0, true, true⟩ : ThermostatState).cooling_delay = 0) := by
  decide

/-- C4 (amended): in a tick that begins with both relays off, probe 2 disabled
and reading1 > setpoint + hysteresis1, the cool relay is on after the tick if and
only if `cooling_delay` is at most 1 when the tick begins (0 after the tick's own
decrement), and the heat relay stays off; for a starting `cooling_delay` of 2 or
more both relays stay off, both countdowns are decremented, the heat indicator
shows idle and the cool indicator is flipped by the low bit of the decremented
countdown. -/
theorem cool_engages_iff_delay_le_one (m : EEPROM) (temperature temperature2 : Int)
    (s : ThermostatState) (setpoint hysteresis : Int)
    (hsp : setpoint = toInt16 (eeprom_read_config m (EEADR_SET_MENU_ITEM .SP)))
    (hhy : hysteresis = toInt16 (eeprom_read_config m (EEADR_SET_MENU_ITEM .hy)))
    (hpb : eeprom_read_config m (EEADR_SET_MENU_ITEM .Pb) % 256 = 0)
    (h4 : s.LATA4 = false) (h5 : s.LATA5 = false)
    (hgt : temperature > add16 setpoint hysteresis) :
    ((temperature_control m temperature temperature2 s).LATA4 = true ↔ s.cooling_delay ≤ 1) ∧
    (temperature_control m temperature temperature2 s).LATA5 = false ∧
    (2 ≤ s.cooling_delay →
      temperature_control m temperature temperature2 s =
        { LATA4 := false, LATA5 := false
          cooling_delay := s.cooling_delay - 1
          heating_delay := s.heating_delay - 1
          e_cool := xor true (decide ((s.cooling_delay - 1) &&& 1 = 1))
          e_heat := true }) := by
  subst hsp hhy
  rcases s with ⟨c, h, cd, hd, ec, eh⟩
  simp only at h4 h5
  subst h4 h5
  unfold temperature_control
  simp only [dec_eq_pred, hpb, hgt]
  by_cases hc : cd - 1 = 0
  · simp [hc]; omega
  · simp [hc]; omega

/-- Witness for C4 (amended): the claim's own configuration (setpoint 200,
hysteresis 5, reading1 206) with a starting countdown of 3. -/
theorem cool_engages_iff_delay_le_one_witness :
    ((temperature_control (EEPROM.ofWords eedata) 206 0
        ⟨false, false, 3, 0, true, true⟩).LATA4 = true ↔ 3 ≤ 1) ∧
    (temperature_control (EEPROM.ofWords eedata) 206 0
        ⟨false, false, 3, 0, true, true⟩).LATA5 = false :=
  ⟨(cool_engages_iff_delay_le_one (EEPROM.ofWords eedata) 206 0
      ⟨false, false, 3, 0, true, true⟩ 200 5 (by decide) (by decide) (by decide) rfl rfl
      (by decide)).1,
   (cool_engages_iff_delay_le_one (EEPROM.ofWords eedata) 206 0
      ⟨false, false, 3, 0, true, true⟩ 200 5 (by decide) (by decide) (by decide) rfl rfl
      (by decide)).2.1⟩

/-- C5: over any run of control ticks on an unchanged EEPROM, after a tick that
deactivates a relay (a relay that was on is off), with stored delays `cd` and `hd`
of at most 60 minutes: whatever the readings, the cool relay is off after each of
the next `60·cd − 1` ticks and the heat relay after each of the next `60·hd − 1`
ticks; and in any later tick a relay is energized (off before, on after) only
if its own countdown is 0 at the end of that tick. -/
theorem anti_short_cycle (m : EEPROM) (temperature temperature2 : Int)
    (s0 : ThermostatState) (cd hd : Nat)
    (hcd : cd = eeprom_read_config m (EEADR_SET_MENU_ITEM .cd))
    (hhd : hd = eeprom_read_config m (EEADR_SET_MENU_ITEM .hd))
    (hcd60 : cd ≤ 60) (hhd60 : hd ≤ 60)
    (hdeact :
      (s0.LATA4 = true ∧ (temperature_control m temperature temperature2 s0).LATA4 = false) ∨
      (s0.LATA5 = true ∧ (temperature_control m temperature temperature2 s0).LATA5 = false))
    (rs : List (Int × Int)) :
    (rs.length ≤ 60 * cd - 1 →
      (control_ticks m rs (temperature_control m temperature temperature2 s0)).LATA4 = false) ∧
    (rs.length ≤ 60 * hd - 1 →
      (control_ticks m rs (temperature_control m temperature temperature2 s0)).LATA5 = false) ∧
    (∀ r : Int × Int,
      ((control_ticks m rs (temperature_control m temperature temperature2 s0)).LATA4 = false →
        (temperature_control m r.1 r.2
          (control_ticks m rs (temperature_control m temperature temperature2 s0))).LATA4 = true →
        (temperature_control m r.1 r.2
          (control_ticks m rs
            (temperature_control m temperature temperature2 s0))).cooling_delay = 0) ∧
      ((control_ticks m rs (temperature_control m temperature temperature2 s0)).LATA5 = false →
        (temperature_control m r.1 r.2
          (control_ticks m rs (temperature_control m temperature temperature2 s0))).LATA5 = true →
        (temperature_control m r.1 r.2
          (control_ticks m rs
            (temperature_control m temperature temperature2 s0))).heating_delay = 0)) := by
  obtain ⟨h4, h5, hc, hh⟩ := tick_deactivates m temperature temperature2 s0 hdeact
  have hc60 := delay_reset_of_le cd (by omega)
  have hh60 := delay_reset_of_le hd (by omega)
  rw [← hcd] at hc
  rw [← hhd] at hh
  refine ⟨fun hlen => ?_, fun hlen => ?_, fun r => ⟨fun hoff hon => ?_, fun hoff hon => ?_⟩⟩
  · by_cases hz : rs.length = 0
    · rw [List.length_eq_zero] at hz
      subst hz
      exact h4
    · apply cool_stays_off m rs _ h4
      · rw [hc, hc60]; omega
      · rw [← hcd, hc60]; omega
  · by_cases hz : rs.length = 0
    · rw [List.length_eq_zero] at hz
      subst hz
      exact h5
    · apply heat_stays_off m rs _ h5
      · rw [hh, hh60]; omega
      · rw [← hhd, hh60]; omega
  · rcases (tick_cool m r.1 r.2 _).1 hon with h' | ⟨_, h'⟩
    · rw [hoff] at h'; exact absurd h' (by decide)
    · exact h'
  · rcases (tick_heat m r.1 r.2 _).1 hon with h' | ⟨_, h'⟩
    · rw [hoff] at h'; exact absurd h' (by decide)
    · exact h'

/-- Witness for C5 on the default EEPROM image (`cd` 5, `hd` 2): cooling is on
and reading1 = 150 ≤ 200 switches it off; three ticks at reading1 = 300 later the
cool relay is still off. -/
theorem anti_short_cycle_witness :
    (control_ticks (EEPROM.ofWords eedata) [(300, 0), (300, 0), (300, 0)]
      (temperature_control (EEPROM.ofWords eedata) 150 0
        ⟨true, false, 0, 0, false, true⟩)).LATA4 = false :=
  (anti_short_cycle (EEPROM.ofWords eedata) 150 0 ⟨true, false, 0, 0, false, true⟩ 5 2
    (by decide) (by decide) (by decide) (by decide) (Or.inl (by decide))
    [(300, 0), (300, 0), (300, 0)]).1 (by decide)

/-- C6 (counterexample): on the default EEPROM image (setpoint 200, `cd` 5,
`hd` 2), a tick that begins with cooling on, both countdowns 0 and reading1 = 150
takes the turn-off branch and ends with `cooling_delay = 300` and
`heating_delay = 120`: a zero countdown did not stay zero. -/
theorem delays_reloaded_on_turn_off :
    (⟨true, false, 0, 0, false, true⟩ : ThermostatState).cooling_delay = 0 ∧
    (⟨true, false, 0, 0, false, true⟩ : ThermostatState).heating_delay = 0 ∧
    (temperature_control (EEPROM.ofWords eedata) 150 0
      ⟨true, false, 0, 0, false, true⟩).cooling_delay = 300 ∧
    (temperature_control (EEPROM.ofWords eedata) 150 0
      ⟨true, false, 0, 0, false, true⟩).heating_delay = 120 := by
  decide

/-- C6 (amended): in every control tick that does not take the turn-off branch
(energize, wait, or neither), each of `cooling_delay` and `heating_delay` that is
nonzero at the start of the tick is exactly one lower at the end, and a zero
countdown stays zero. -/
theorem delays_decrement_outside_turn_off (m : EEPROM) (temperature temperature2 : Int)
    (s : ThermostatState) (setpoint hysteresis2 : Int) (probe2 : Nat)
    (hsp : setpoint = toInt16 (eeprom_read_config m (EEADR_SET_MENU_ITEM .SP)))
    (hhy2 : hysteresis2 = toInt16 (eeprom_read_config m (EEADR_SET_MENU_ITEM .hy2)))
    (hpb : probe2 = eeprom_read_config m (EEADR_SET_MENU_ITEM .Pb) % 256)
    (h : ¬ ((s.LATA4 = true ∧ (temperature ≤ setpoint ∨
              (probe2 ≠ 0 ∧ temperature2 < sub16 setpoint hysteresis2))) ∨
            (s.LATA5 = true ∧ (temperature ≥ setpoint ∨
              (probe2 ≠ 0 ∧ temperature2 > add16 setpoint hysteresis2))))) :
    (s.cooling_delay ≠ 0 →
      (temperature_control m temperature temperature2 s).cooling_delay + 1 = s.cooling_delay) ∧
    (s.cooling_delay = 0 →
      (temperature_control m temperature temperature2 s).cooling_delay = 0) ∧
    (s.heating_delay ≠ 0 →
      (temperature_control m temperature temperature2 s).heating_delay + 1 = s.heating_delay) ∧
    (s.heating_delay = 0 →
      (temperature_control m temperature temperature2 s).heating_delay = 0) := by
  subst hsp hhy2 hpb
  obtain ⟨hc, hh⟩ := tick_no_turn_off_delays m temperature temperature2 s h
  rw [hc, hh]
  refine ⟨?_, ?_, ?_, ?_⟩ <;> intro h0 <;> omega

/-- Witness for C6 (amended): default EEPROM image, both relays off, reading1 = 206,
countdowns 3 and 0: the wait branch leaves them at 2 and 0. -/
theorem delays_decrement_outside_turn_off_witness :
    (temperature_control (EEPROM.ofWords eedata) 206 0
      ⟨false, false, 3, 0, true, true⟩).cooling_delay + 1 = 3 ∧
    (temperature_control (EEPROM.ofWords eedata) 206 0
      ⟨false, false, 3, 0, true, true⟩).heating_delay = 0 :=
  ⟨(delays_decrement_outside_turn_off (EEPROM.ofWords eedata) 206 0
      ⟨false, false, 3, 0, true, true⟩ 200 50 0 (by decide) (by decide) (by decide)
      (by decide)).1 (by decide),
   (delays_decrement_outside_turn_off (EEPROM.ofWords eedata) 206 0
      ⟨false, false, 3, 0, true, true⟩ 200 50 0 (by decide) (by decide) (by decide)
      (by decide)).2.2.2 rfl⟩

/-- C7: for every stored delay of `minutes ≤ 1023` (so for every configured value
0..60), the reset countdown `(minutes << 6) − ((minutes << 6) >> 4)` computed in
unsigned 16-bit arithmetic is exactly `60·minutes`, which is 15/16 (93.75%) of
`64·minutes` with no rounding loss. -/
theorem delay_reset_exact (minutes : Nat) (h : minutes ≤ 1023) :
    delay_reset minutes
      = ((minutes <<< 6) % 65536 - (((minutes <<< 6) % 65536) >>> 4)) % 65536 ∧
    delay_reset minutes = 60 * minutes ∧
    16 * delay_reset minutes = 15 * (64 * minutes) := by
  refine ⟨rfl, delay_reset_of_le minutes h, ?_⟩
  rw [delay_reset_of_le minutes h]
  omega

/-- Witness for C7 at the largest configurable delay, 60 minutes. -/
theorem delay_reset_exact_witness :
    delay_reset 60 = 60 * 60 ∧ 16 * delay_reset 60 = 15 * (64 * 60) :=
  (delay_reset_exact 60 (by decide)).2

/-! ## Lemmas on the profile engine -/

theorem toU16_toInt16 (n : Nat) : toU16 (toInt16 n) = n % 65536 := by
  unfold toU16 toInt16
  split_ifs <;> omega

theorem EEADR_PROFILE_SETPOINT_eq (p s : Nat) : EEADR_PROFILE_SETPOINT p s = 20 * p + 2 * s := by
  unfold EEADR_PROFILE_SETPOINT
  simp only [Nat.shiftLeft_eq]
  omega

theorem EEADR_SET_MENU_ITEM_eq (name : set_menu_enum) :
    EEADR_SET_MENU_ITEM name = 100 + name.toNat := by
  unfold EEADR_SET_MENU_ITEM EEADR_SET_MENU NO_OF_PROFILES
  rw [EEADR_PROFILE_SETPOINT_eq]

theorem clamp_step (x : Nat) : (if x > 8 then 8 else x) = min x 8 := by
  split_ifs <;> omega

/-- The step boundary with a following step: three writes. -/
theorem update_profile_advance (m : EEPROM) (p s : Nat)
    (hp : eeprom_read_config m (EEADR_SET_MENU_ITEM .rn) % 256 = p) (hp5 : p < 5)
    (hs : min (eeprom_read_config m (EEADR_SET_MENU_ITEM .St) % 256) 8 = s) (hs8 : s < 8)
    (hdur : (eeprom_read_config m (EEADR_SET_MENU_ITEM .dh) + 1) % 65536
        ≥ eeprom_read_config m (20 * p + 2 * s + 1))
    (hnext : eeprom_read_config m (20 * p + 2 * s + 3) ≠ 0) :
    update_profile m =
      eeprom_write_config
        (eeprom_write_config
          (eeprom_write_config m 105 (eeprom_read_config m (20 * p + 2 * s + 2)))
          106 (s + 1))
        107 0 := by
  have hlt := eeprom_read_config_lt m (20 * p + 2 * s + 2)
  have haddr : (20 * p + 2 * s) % 256 = 20 * p + 2 * s := by omega
  have hother : eeprom_read_config
      (eeprom_write_config m 105 (eeprom_read_config m (20 * p + 2 * s + 2)))
      (20 * p + 2 * s + 3) = eeprom_read_config m (20 * p + 2 * s + 3) :=
    eeprom_read_write_other m 105 _ _ (by omega)
  simp only [EEADR_SET_MENU_ITEM_eq, set_menu_enum.toNat, Nat.reduceAdd, ge_iff_le] at hp hs hdur
  unfold update_profile
  simp only [clamp_step, THERMOSTAT_MODE, NO_OF_PROFILES, EEADR_PROFILE_SETPOINT_eq,
    EEADR_SET_MENU_ITEM_eq, set_menu_enum.toNat, Nat.reduceAdd, ge_iff_le]
  simp only [hp, hs, hp5, if_true, haddr]
  rw [if_pos hdur, toU16_toInt16, Nat.mod_eq_of_lt hlt, hother]
  have hs' : (s + 1) % 256 = s + 1 := by omega
  have hne : ¬ (s = 8 ∨ eeprom_read_config m (20 * p + 2 * s + 3) = 0) := by
    intro h; rcases h with h | h
    · omega
    · exact hnext h
  rw [if_neg hne, hs']

/-- The step boundary at the end of the profile: two writes. -/
theorem update_profile_finish (m : EEPROM) (p s : Nat)
    (hp : eeprom_read_config m (EEADR_SET_MENU_ITEM .rn) % 256 = p) (hp5 : p < 5)
    (hs : min (eeprom_read_config m (EEADR_SET_MENU_ITEM .St) % 256) 8 = s)
    (hdur : (eeprom_read_config m (EEADR_SET_MENU_ITEM .dh) + 1) % 65536
        ≥ eeprom_read_config m (20 * p + 2 * s + 1))
    (hlast : s = 8 ∨ eeprom_read_config m (20 * p + 2 * s + 3) = 0) :
    update_profile m =
      eeprom_write_config
        (eeprom_write_config m 105 (eeprom_read_config m (20 * p + 2 * s + 2))) 112 5 := by
  have hlt := eeprom_read_config_lt m (20 * p + 2 * s + 2)
  have hs8 : s ≤ 8 := by omega
  have haddr : (20 * p + 2 * s) % 256 = 20 * p + 2 * s := by omega
  have hother : eeprom_read_config
      (eeprom_write_config m 105 (eeprom_read_config m (20 * p + 2 * s + 2)))
      (20 * p + 2 * s + 3) = eeprom_read_config m (20 * p + 2 * s + 3) :=
    eeprom_read_write_other m 105 _ _ (by omega)
  simp only [EEADR_SET_MENU_ITEM_eq, set_menu_enum.toNat, Nat.reduceAdd, ge_iff_le] at hp hs hdur
  unfold update_profile
  simp only [clamp_step, THERMOSTAT_MODE, NO_OF_PROFILES, EEADR_PROFILE_SETPOINT_eq,
    EEADR_SET_MENU_ITEM_eq, set_menu_enum.toNat, Nat.reduceAdd, ge_iff_le]
  simp only [hp, hs, hp5, if_true, haddr]
  rw [if_pos hdur, toU16_toInt16, Nat.mod_eq_of_lt hlt, hother, if_pos hlast]

/-- Inside a step with ramping disabled: one write. -/
theorem update_profile_hold (m : EEPROM) (p s : Nat)
    (hp : eeprom_read_config m (EEADR_SET_MENU_ITEM .rn) % 256 = p) (hp5 : p < 5)
    (hs : min (eeprom_read_config m (EEADR_SET_MENU_ITEM .St) % 256) 8 = s)
    (hdur : (eeprom_read_config m (EEADR_SET_MENU_ITEM .dh) + 1) % 65536
        < eeprom_read_config m (20 * p + 2 * s + 1))
    (hrp : eeprom_read_config m (EEADR_SET_MENU_ITEM .rP) = 0) :
    update_profile m =
      eeprom_write_config m 107 ((eeprom_read_config m 107 + 1) % 65536) := by
  have hs8 : s ≤ 8 := by omega
  have haddr : (20 * p + 2 * s) % 256 = 20 * p + 2 * s := by omega
  simp only [EEADR_SET_MENU_ITEM_eq, set_menu_enum.toNat, Nat.reduceAdd, ge_iff_le]
    at hp hs hdur hrp
  unfold update_profile
  simp only [clamp_step, THERMOSTAT_MODE, NO_OF_PROFILES, EEADR_PROFILE_SETPOINT_eq,
    EEADR_SET_MENU_ITEM_eq, set_menu_enum.toNat, Nat.reduceAdd, ge_iff_le]
  simp only [hp, hs, hp5, if_true, haddr]
  rw [if_neg (by omega), hrp]
  simp only [ne_eq, not_true_eq_false, if_false]

/-- The profile engine does nothing in thermostat mode. -/
theorem update_profile_idle (m : EEPROM)
    (h : ¬ eeprom_read_config m (EEADR_SET_MENU_ITEM .rn) % 256 < 5) :
    update_profile m = m := by
  unfold update_profile
  simp only [THERMOSTAT_MODE, NO_OF_PROFILES]
  rw [if_neg h]

theorem cell_of_word (a c : Nat) (ha : a < 128) (h : c / 2 ≠ a) :
    c ≠ cell_lo a ∧ c ≠ cell_lo a + 1 := by
  have := cell_lo_eq a
  omega

theorem EEADR_PROFILE_DURATION_eq (p s : Nat) :
    EEADR_PROFILE_DURATION p s = 20 * p + 2 * s + 1 := by
  unfold EEADR_PROFILE_DURATION
  rw [EEADR_PROFILE_SETPOINT_eq]

/-- C8: when `update_profile` runs with an active profile `p < 5` (low byte of
the stored run mode), clamped step index `s < 8`, elapsed+1 (the 16-bit sum the
code forms) at least the duration of step `s`, and a nonzero duration of step
`s+1`: afterwards the live setpoint equals the setpoint of step `s+1`, the stored
step index is `s+1`, the stored elapsed duration is 0, the run mode is unchanged
(still `p`), and no other configuration word and no other byte cell has changed. -/
theorem profile_step_advance (m : EEPROM) (p s : Nat)
    (hp : eeprom_read_config m (EEADR_SET_MENU_ITEM .rn) % 256 = p) (hp5 : p < 5)
    (hs : min (eeprom_read_config m (EEADR_SET_MENU_ITEM .St) % 256) 8 = s) (hs8 : s < 8)
    (hdur : (eeprom_read_config m (EEADR_SET_MENU_ITEM .dh) + 1) % 65536
        ≥ eeprom_read_config m (EEADR_PROFILE_DURATION p s))
    (hnext : eeprom_read_config m (EEADR_PROFILE_DURATION p (s + 1)) ≠ 0) :
    eeprom_read_config (update_profile m) (EEADR_SET_MENU_ITEM .SP)
      = eeprom_read_config m (EEADR_PROFILE_SETPOINT p (s + 1)) ∧
    eeprom_read_config (update_profile m) (EEADR_SET_MENU_ITEM .St) = s + 1 ∧
    eeprom_read_config (update_profile m) (EEADR_SET_MENU_ITEM .dh) = 0 ∧
    eeprom_read_config (update_profile m) (EEADR_SET_MENU_ITEM .rn)
      = eeprom_read_config m (EEADR_SET_MENU_ITEM .rn) ∧
    eeprom_read_config (update_profile m) (EEADR_SET_MENU_ITEM .rn) % 256 = p ∧
    (∀ a, a < 128 → a ≠ EEADR_SET_MENU_ITEM .SP → a ≠ EEADR_SET_MENU_ITEM .St →
      a ≠ EEADR_SET_MENU_ITEM .dh →
      eeprom_read_config (update_profile m) a = eeprom_read_config m a) ∧
    (∀ c, c / 2 ≠ EEADR_SET_MENU_ITEM .SP → c / 2 ≠ EEADR_SET_MENU_ITEM .St →
      c / 2 ≠ EEADR_SET_MENU_ITEM .dh → (update_profile m).cells c = m.cells c) := by
  rw [EEADR_PROFILE_DURATION_eq] at hdur hnext
  have hupd := update_profile_advance m p s hp hp5 hs hs8 hdur
    (by rw [show 20 * p + 2 * s + 3 = 20 * p + 2 * (s + 1) + 1 by ring]; exact hnext)
  have hlt := eeprom_read_config_lt m (20 * p + 2 * s + 2)
  have hframe : ∀ a, a < 128 → a ≠ 105 → a ≠ 106 → a ≠ 107 →
      eeprom_read_config (update_profile m) a = eeprom_read_config m a := by
    intro a ha h5 h6 h7
    rw [hupd, eeprom_read_write_other _ _ _ _ (by omega),
      eeprom_read_write_other _ _ _ _ (by omega), eeprom_read_write_other _ _ _ _ (by omega)]
  simp only [EEADR_SET_MENU_ITEM_eq, set_menu_enum.toNat, Nat.reduceAdd,
    EEADR_PROFILE_SETPOINT_eq] at hp ⊢
  refine ⟨?_, ?_, ?_, ?_, ?_, hframe, ?_⟩
  · rw [hupd, eeprom_read_write_other _ _ _ _ (by omega),
      eeprom_read_write_other _ _ _ _ (by omega), eeprom_read_write_same,
      Nat.mod_eq_of_lt hlt, show 20 * p + 2 * (s + 1) = 20 * p + 2 * s + 2 by ring]
  · rw [hupd, eeprom_read_write_other _ _ _ _ (by omega), eeprom_read_write_same]
    omega
  · rw [hupd, eeprom_read_write_same]
  · exact hframe 112 (by omega) (by omega) (by omega) (by omega)
  · rw [hframe 112 (by omega) (by omega) (by omega) (by omega)]; exact hp
  · intro c h5 h6 h7
    have c5 := cell_of_word 105 c (by omega) h5
    have c6 := cell_of_word 106 c (by omega) h6
    have c7 := cell_of_word 107 c (by omega) h7
    rw [hupd, eeprom_write_config_cells_other _ _ _ _ c7.1 c7.2,
      eeprom_write_config_cells_other _ _ _ _ c6.1 c6.2,
      eeprom_write_config_cells_other _ _ _ _ c5.1 c5.2]

/-- Witness for C8: the default image running profile 0 at step 0 with 23 hours
elapsed (step 0 lasts 24 hours, step 1 has setpoint 170 and duration 24). -/
theorem profile_step_advance_witness :
    eeprom_read_config (update_profile (eedata_running 0 23)) (EEADR_SET_MENU_ITEM .SP)
      = eeprom_read_config (eedata_running 0 23) (EEADR_PROFILE_SETPOINT 0 (0 + 1)) ∧
    eeprom_read_config (update_profile (eedata_running 0 23)) (EEADR_SET_MENU_ITEM .St)
      = 0 + 1 ∧
    eeprom_read_config (update_profile (eedata_running 0 23)) (EEADR_SET_MENU_ITEM .dh) = 0 :=
  have h := profile_step_advance (eedata_running 0 23) 0 0 (by decide) (by decide) (by decide)
    (by decide) (by decide) (by decide)
  ⟨h.1, h.2.1, h.2.2.1⟩

/-- C9: when `update_profile` runs with an active profile `p < 5`, elapsed+1 (the
16-bit sum the code forms) at least the duration of the current step `s` (the
clamped step index), and either `s = 8` or the next step's duration is 0:
afterwards the live setpoint equals the next step's setpoint and the run mode is
thermostat-only (5), while the stored step index, the stored elapsed duration,
every other configuration word and every other byte cell are as before. -/
theorem profile_finish (m : EEPROM) (p s : Nat)
    (hp : eeprom_read_config m (EEADR_SET_MENU_ITEM .rn) % 256 = p) (hp5 : p < 5)
    (hs : min (eeprom_read_config m (EEADR_SET_MENU_ITEM .St) % 256) 8 = s)
    (hdur : (eeprom_read_config m (EEADR_SET_MENU_ITEM .dh) + 1) % 65536
        ≥ eeprom_read_config m (EEADR_PROFILE_DURATION p s))
    (hlast : s = 8 ∨ eeprom_read_config m (EEADR_PROFILE_DURATION p (s + 1)) = 0) :
    eeprom_read_config (update_profile m) (EEADR_SET_MENU_ITEM .SP)
      = eeprom_read_config m (EEADR_PROFILE_SETPOINT p (s + 1)) ∧
    eeprom_read_config (update_profile m) (EEADR_SET_MENU_ITEM .rn) = THERMOSTAT_MODE ∧
    eeprom_read_config (update_profile m) (EEADR_SET_MENU_ITEM .St)
      = eeprom_read_config m (EEADR_SET_MENU_ITEM .St) ∧
    eeprom_read_config (update_profile m) (EEADR_SET_MENU_ITEM .dh)
      = eeprom_read_config m (EEADR_SET_MENU_ITEM .dh) ∧
    (∀ a, a < 128 → a ≠ EEADR_SET_MENU_ITEM .SP → a ≠ EEADR_SET_MENU_ITEM .rn →
      eeprom_read_config (update_profile m) a = eeprom_read_config m a) ∧
    (∀ c, c / 2 ≠ EEADR_SET_MENU_ITEM .SP → c / 2 ≠ EEADR_SET_MENU_ITEM .rn →
      (update_profile m).cells c = m.cells c) := by
  rw [EEADR_PROFILE_DURATION_eq] at hdur hlast
  have hupd := update_profile_finish m p s hp hp5 hs hdur
    (by rw [show 20 * p + 2 * s + 3 = 20 * p + 2 * (s + 1) + 1 by ring]; exact hlast)
  have hlt := eeprom_read_config_lt m (20 * p + 2 * s + 2)
  have hframe : ∀ a, a < 128 → a ≠ 105 → a ≠ 112 →
      eeprom_read_config (update_profile m) a = eeprom_read_config m a := by
    intro a ha h5 h12
    rw [hupd, eeprom_read_write_other _ _ _ _ (by omega),
      eeprom_read_write_other _ _ _ _ (by omega)]
  simp only [EEADR_SET_MENU_ITEM_eq, set_menu_enum.toNat, Nat.reduceAdd,
    EEADR_PROFILE_SETPOINT_eq, THERMOSTAT_MODE, NO_OF_PROFILES] at hp ⊢
  refine ⟨?_, ?_, ?_, ?_, hframe, ?_⟩
  · rw [hupd, eeprom_read_write_other _ _ _ _ (by omega), eeprom_read_write_same,
      Nat.mod_eq_of_lt hlt, show 20 * p + 2 * (s + 1) = 20 * p + 2 * s + 2 by ring]
  · rw [hupd, eeprom_read_write_same]
  · exact hframe 106 (by omega) (by omega) (by omega)
  · exact hframe 107 (by omega) (by omega) (by omega)
  · intro c h5 h12
    have c5 := cell_of_word 105 c (by omega) h5
    have c12 := cell_of_word 112 c (by omega) h12
    rw [hupd, eeprom_write_config_cells_other _ _ _ _ c12.1 c12.2,
      eeprom_write_config_cells_other _ _ _ _ c5.1 c5.2]

/-- Witness for C9: the default image running profile 0 at step 5 with 47 hours
elapsed (step 5 lasts 48 hours; step 6 has setpoint 40 and duration 0). -/
theorem profile_finish_witness :
    eeprom_read_config (update_profile (eedata_running 5 47)) (EEADR_SET_MENU_ITEM .SP)
      = eeprom_read_config (eedata_running 5 47) (EEADR_PROFILE_SETPOINT 0 (5 + 1)) ∧
    eeprom_read_config (update_profile (eedata_running 5 47)) (EEADR_SET_MENU_ITEM .rn)
      = THERMOSTAT_MODE :=
  have h := profile_finish (eedata_running 5 47) 0 5 (by decide) (by decide) (by decide)
    (by decide) (Or.inr (by decide))
  ⟨h.1, h.2.1⟩

theorem hourly_updates_succ (n : Nat) :
    ∀ m : EEPROM, hourly_updates (n + 1) m = update_profile (hourly_updates n m) := by
  induction n with
  | zero => intro m; rfl
  | succ k ih => intro m; exact ih (update_profile m)

/-- While a step of a profile without ramping lasts, the hourly updates only
count the elapsed hours. -/
theorem hourly_updates_hold (m : EEPROM) (p d : Nat) (hp5 : p < 5) (hd999 : d ≤ 999)
    (hdur0 : eeprom_read_config m (20 * p + 1) = d)
    (hrn : eeprom_read_config m 112 = p)
    (hst : eeprom_read_config m 106 = 0)
    (hdh : eeprom_read_config m 107 = 0)
    (hrp : eeprom_read_config m 110 = 0) :
    ∀ k, k < d →
      eeprom_read_config (hourly_updates k m) 107 = k ∧
      ∀ c, c / 2 ≠ 107 → (hourly_updates k m).cells c = m.cells c := by
  intro k
  induction k with
  | zero => intro _; exact ⟨hdh, fun c _ => rfl⟩
  | succ k ih =>
    intro hk
    obtain ⟨hk107, hkc⟩ := ih (by omega)
    have hread : ∀ a, a < 128 → a ≠ 107 →
        eeprom_read_config (hourly_updates k m) a = eeprom_read_config m a := by
      intro a ha hne
      have hl := cell_lo_eq a
      apply eeprom_read_congr <;> apply hkc <;> omega
    have hupd := update_profile_hold (hourly_updates k m) p 0
      (by rw [EEADR_SET_MENU_ITEM_eq, set_menu_enum.toNat,
            hread 112 (by omega) (by omega), hrn]; omega)
      hp5
      (by rw [EEADR_SET_MENU_ITEM_eq, set_menu_enum.toNat,
            hread 106 (by omega) (by omega), hst]; rfl)
      (by rw [EEADR_SET_MENU_ITEM_eq, set_menu_enum.toNat, hk107,
            hread (20 * p + 2 * 0 + 1) (by omega) (by omega)]
          rw [show 20 * p + 2 * 0 + 1 = 20 * p + 1 by ring, hdur0]; omega)
      (by rw [EEADR_SET_MENU_ITEM_eq, set_menu_enum.toNat,
            hread 110 (by omega) (by omega), hrp])
    rw [hourly_updates_succ, hupd, hk107]
    refine ⟨?_, ?_⟩
    · rw [eeprom_read_write_same]; omega
    · intro c hc
      have c7 := cell_of_word 107 c (by omega) hc
      rw [eeprom_write_config_cells_other _ _ _ _ c7.1 c7.2]
      exact hkc c hc

/-- C10: for every profile `p < 5` whose step 0 has duration `d` (1 ≤ d ≤ 999)
and whose step 1 has duration 0, starting from run mode `p`, step index 0,
elapsed duration 0 and ramping disabled: after each of the first `d − 1` hourly
invocations of `update_profile` the live setpoint and the run mode are as at the
start, and after the `d`-th invocation the live setpoint is the setpoint of
step 1 and the run mode is thermostat-only (5). -/
theorem profile_end_on_same_trigger (m : EEPROM) (p d : Nat) (hp5 : p < 5)
    (hd1 : 1 ≤ d) (hd999 : d ≤ 999)
    (hdur0 : eeprom_read_config m (EEADR_PROFILE_DURATION p 0) = d)
    (hdur1 : eeprom_read_config m (EEADR_PROFILE_DURATION p 1) = 0)
    (hrn : eeprom_read_config m (EEADR_SET_MENU_ITEM .rn) = p)
    (hst : eeprom_read_config m (EEADR_SET_MENU_ITEM .St) = 0)
    (hdh : eeprom_read_config m (EEADR_SET_MENU_ITEM .dh) = 0)
    (hrp : eeprom_read_config m (EEADR_SET_MENU_ITEM .rP) = 0) :
    (∀ k, k < d →
      eeprom_read_config (hourly_updates k m) (EEADR_SET_MENU_ITEM .SP)
        = eeprom_read_config m (EEADR_SET_MENU_ITEM .SP) ∧
      eeprom_read_config (hourly_updates k m) (EEADR_SET_MENU_ITEM .rn) = p) ∧
    eeprom_read_config (hourly_updates d m) (EEADR_SET_MENU_ITEM .SP)
      = eeprom_read_config m (EEADR_PROFILE_SETPOINT p 1) ∧
    eeprom_read_config (hourly_updates d m) (EEADR_SET_MENU_ITEM .rn) = THERMOSTAT_MODE := by
  simp only [EEADR_SET_MENU_ITEM_eq, set_menu_enum.toNat, Nat.reduceAdd,
    EEADR_PROFILE_SETPOINT_eq, EEADR_PROFILE_DURATION_eq, THERMOSTAT_MODE, NO_OF_PROFILES,
    Nat.mul_zero, Nat.mul_one, Nat.add_zero] at *
  have hold := hourly_updates_hold m p d hp5 hd999 hdur0 hrn hst hdh hrp
  have hread : ∀ k, k < d → ∀ a, a < 128 → a ≠ 107 →
      eeprom_read_config (hourly_updates k m) a = eeprom_read_config m a := by
    intro k hk a ha hne
    have hl := cell_lo_eq a
    apply eeprom_read_congr <;> apply (hold k hk).2 <;> omega
  refine ⟨fun k hk => ⟨hread k hk 105 (by omega) (by omega), ?_⟩, ?_⟩
  · rw [hread k hk 112 (by omega) (by omega), hrn]
  · obtain ⟨e, rfl⟩ : ∃ e, d = e + 1 := ⟨d - 1, by omega⟩
    have hk := hread e (by omega)
    have hupd := update_profile_finish (hourly_updates e m) p 0
      (by rw [EEADR_SET_MENU_ITEM_eq, set_menu_enum.toNat,
            hk 112 (by omega) (by omega), hrn]; omega)
      hp5
      (by rw [EEADR_SET_MENU_ITEM_eq, set_menu_enum.toNat,
            hk 106 (by omega) (by omega), hst]; rfl)
      (by rw [EEADR_SET_MENU_ITEM_eq, set_menu_enum.toNat, (hold e (by omega)).1,
            hk (20 * p + 2 * 0 + 1) (by omega) (by omega)]
          rw [show 20 * p + 2 * 0 + 1 = 20 * p + 1 by ring, hdur0]; omega)
      (Or.inr (by
        rw [hk (20 * p + 2 * 0 + 3) (by omega) (by omega)]
        rw [show 20 * p + 2 * 0 + 3 = 20 * p + 2 + 1 by ring]; exact hdur1))
    have hlt := eeprom_read_config_lt m (20 * p + 2)
    rw [hourly_updates_succ, hupd]
    refine ⟨?_, ?_⟩
    · rw [eeprom_read_write_other _ _ _ _ (by omega), eeprom_read_write_same,
        hk (20 * p + 2 * 0 + 2) (by omega) (by omega)]
      rw [show 20 * p + 2 * 0 + 2 = 20 * p + 2 by ring, Nat.mod_eq_of_lt hlt]
    · rw [eeprom_read_write_same]

/-- Witness for C10: step 0 = (200, 2 hours), step 1 = (250, 0): after one
trigger setpoint and run mode are unchanged, after two triggers the live
setpoint is 250 and the run mode is thermostat-only. -/
theorem profile_end_on_same_trigger_witness :
    (eeprom_read_config (hourly_updates 1 eedata_two_hour_profile) (EEADR_SET_MENU_ITEM .SP)
        = 200 ∧
      eeprom_read_config (hourly_updates 1 eedata_two_hour_profile) (EEADR_SET_MENU_ITEM .rn)
        = 0) ∧
    eeprom_read_config (hourly_updates 2 eedata_two_hour_profile) (EEADR_SET_MENU_ITEM .SP)
      = 250 ∧
    eeprom_read_config (hourly_updates 2 eedata_two_hour_profile) (EEADR_SET_MENU_ITEM .rn)
      = 5 :=
  have h := profile_end_on_same_trigger eedata_two_hour_profile 0 2 (by decide) (by decide)
    (by decide) (by decide) (by decide) (by decide) (by decide) (by decide) (by decide)
  ⟨h.1 1 (by decide), h.2⟩

/-! ## Lemmas on the ramp -/

/-- The ramp loop adds the next setpoint once for every whole `profile_step_dur`
it can take out of `t` (at most once a pass) and the current setpoint in the
other passes. -/
theorem ramp_loop_eq (d : Nat) (hd : 0 < d) (next cur : Int) (n : Nat) :
    ∀ (t : Nat) (sp : Int),
      ramp_loop n d next cur t sp
        = sp + ((min n (t / d) : Nat) : Int) * next
            + ((n : Int) - ((min n (t / d) : Nat) : Int)) * cur := by
  induction n with
  | zero => intro t sp; simp [ramp_loop]
  | succ n ih =>
    intro t sp
    by_cases h : t ≥ d
    · have hk : min (n + 1) (t / d) = min n ((t - d) / d) + 1 := by
        rw [Nat.div_eq_sub_div hd h]; omega
      rw [ramp_loop, if_pos h, ih, hk]
      push_cast
      ring
    · have hk : t / d = 0 := Nat.div_eq_of_lt (by omega)
      rw [ramp_loop, if_neg h, ih, hk]
      simp only [Nat.min_zero, Nat.cast_zero, zero_mul, add_zero, sub_zero]
      push_cast
      ring

theorem ramp_loop_64 (d e : Nat) (hlt : e < d) (hd : d ≤ 1024) (next cur : Int) :
    ramp_loop 64 d next cur ((e <<< 6) % 65536) 32
      = 32 + ((64 * e / d : Nat) : Int) * next + (64 - ((64 * e / d : Nat) : Int)) * cur := by
  have ht : (e <<< 6) % 65536 = 64 * e := by
    rw [Nat.shiftLeft_eq]; omega
  have hn : 64 * e / d < 64 := Nat.div_lt_of_lt_mul (by nlinarith)
  rw [ht, ramp_loop_eq d (by omega), Nat.min_eq_right (by omega)]
  push_cast
  ring

theorem toInt16_lt (n : Nat) : -32768 ≤ toInt16 n ∧ toInt16 n ≤ 32767 := by
  unfold toInt16
  split_ifs <;> omega

theorem toInt16_toU16 (x : Int) (hlo : -32768 ≤ x) (hhi : x ≤ 32767) :
    toInt16 (toU16 x) = x := by
  unfold toInt16 toU16
  split_ifs <;> omega

/-- The interpolated value lies between the two setpoints. -/
theorem ramp_value_between (n : Nat) (hn : n ≤ 64) (next cur : Int) :
    min cur next ≤ (32 + (n : Int) * next + (64 - (n : Int)) * cur) / 64 ∧
    (32 + (n : Int) * next + (64 - (n : Int)) * cur) / 64 ≤ max cur next := by
  have h1 : (n : Int) * min cur next ≤ (n : Int) * next :=
    mul_le_mul_of_nonneg_left (min_le_right _ _) (by omega)
  have h2 : (64 - (n : Int)) * min cur next ≤ (64 - (n : Int)) * cur :=
    mul_le_mul_of_nonneg_left (min_le_left _ _) (by omega)
  have h3 : (n : Int) * next ≤ (n : Int) * max cur next :=
    mul_le_mul_of_nonneg_left (le_max_right _ _) (by omega)
  have h4 : (64 - (n : Int)) * cur ≤ (64 - (n : Int)) * max cur next :=
    mul_le_mul_of_nonneg_left (le_max_left _ _) (by omega)
  constructor
  · apply Int.le_ediv_of_mul_le (by norm_num)
    nlinarith
  · have h : (32 + (n : Int) * next + (64 - (n : Int)) * cur) / 64 < max cur next + 1 :=
      Int.ediv_lt_of_lt_mul (by norm_num) (by nlinarith)
    omega

/-- Inside a step with ramping enabled: the interpolated setpoint is written,
then the elapsed duration. -/
theorem update_profile_ramp (m : EEPROM) (p s : Nat)
    (hp : eeprom_read_config m (EEADR_SET_MENU_ITEM .rn) % 256 = p) (hp5 : p < 5)
    (hs : min (eeprom_read_config m (EEADR_SET_MENU_ITEM .St) % 256) 8 = s)
    (hdur : (eeprom_read_config m (EEADR_SET_MENU_ITEM .dh) + 1) % 65536
        < eeprom_read_config m (20 * p + 2 * s + 1))
    (hrp : eeprom_read_config m (EEADR_SET_MENU_ITEM .rP) ≠ 0) :
    update_profile m =
      eeprom_write_config
        (eeprom_write_config m 105
          (toU16 ((ramp_loop 64 (eeprom_read_config m (20 * p + 2 * s + 1))
              (toInt16 (eeprom_read_config m (20 * p + 2 * s + 2)))
              (toInt16 (eeprom_read_config m (20 * p + 2 * s)))
              ((((eeprom_read_config m 107 + 1) % 65536) <<< 6) % 65536) 32) >>> (6 : Nat))))
        107 ((eeprom_read_config m 107 + 1) % 65536) := by
  have hs8 : s ≤ 8 := by omega
  have haddr : (20 * p + 2 * s) % 256 = 20 * p + 2 * s := by omega
  simp only [EEADR_SET_MENU_ITEM_eq, set_menu_enum.toNat, Nat.reduceAdd, ge_iff_le]
    at hp hs hdur hrp
  unfold update_profile
  simp only [clamp_step, THERMOSTAT_MODE, NO_OF_PROFILES, EEADR_PROFILE_SETPOINT_eq,
    EEADR_SET_MENU_ITEM_eq, set_menu_enum.toNat, Nat.reduceAdd, ge_iff_le]
  simp only [hp, hs, hp5, if_true, haddr]
  rw [if_neg (by omega), if_pos hrp]

/-- The setpoint and the elapsed duration that the ramp branch stores. -/
theorem update_profile_ramp_values (m : EEPROM) (p s e d : Nat) (cur next : Int)
    (hp : eeprom_read_config m (EEADR_SET_MENU_ITEM .rn) % 256 = p) (hp5 : p < 5)
    (hs : min (eeprom_read_config m (EEADR_SET_MENU_ITEM .St) % 256) 8 = s)
    (he : e = (eeprom_read_config m (EEADR_SET_MENU_ITEM .dh) + 1) % 65536)
    (hd : d = eeprom_read_config m (EEADR_PROFILE_DURATION p s))
    (hcur : cur = toInt16 (eeprom_read_config m (EEADR_PROFILE_SETPOINT p s)))
    (hnext : next = toInt16 (eeprom_read_config m (EEADR_PROFILE_SETPOINT p (s + 1))))
    (hlt : e < d) (hd999 : d ≤ 999)
    (hrp : eeprom_read_config m (EEADR_SET_MENU_ITEM .rP) ≠ 0) :
    toInt16 (eeprom_read_config (update_profile m) (EEADR_SET_MENU_ITEM .SP))
      = (32 + ((64 * e / d : Nat) : Int) * next + (64 - ((64 * e / d : Nat) : Int)) * cur) / 64 ∧
    eeprom_read_config (update_profile m) (EEADR_SET_MENU_ITEM .dh) = e := by
  rw [EEADR_PROFILE_DURATION_eq] at hd
  rw [EEADR_PROFILE_SETPOINT_eq] at hcur hnext
  rw [show 20 * p + 2 * (s + 1) = 20 * p + 2 * s + 2 by ring] at hnext
  have hupd := update_profile_ramp m p s hp hp5 hs (by rw [← he, ← hd]; exact hlt) hrp
  simp only [EEADR_SET_MENU_ITEM_eq, set_menu_enum.toNat, Nat.reduceAdd] at he ⊢
  rw [← he, ← hd, ← hcur, ← hnext, ramp_loop_64 d e hlt (by omega),
    Int.shiftRight_eq_div_pow] at hupd
  have hn : 64 * e / d < 64 := Nat.div_lt_of_lt_mul (by nlinarith)
  have hbet := ramp_value_between (64 * e / d) (by omega) next cur
  have hc := toInt16_lt (eeprom_read_config m (20 * p + 2 * s))
  have hx := toInt16_lt (eeprom_read_config m (20 * p + 2 * s + 2))
  rw [← hcur] at hc
  rw [← hnext] at hx
  rw [show ((2 ^ 6 : Nat) : Int) = 64 by norm_num] at hupd
  rw [hupd]
  constructor
  · rw [eeprom_read_write_other _ _ _ _ (by omega), eeprom_read_write_same]
    have hlt16 : toU16 ((32 + ((64 * e / d : Nat) : Int) * next
        + (64 - ((64 * e / d : Nat) : Int)) * cur) / 64) < 65536 := by
      unfold toU16; omega
    rw [Nat.mod_eq_of_lt hlt16]
    apply toInt16_toU16 <;> omega
  · rw [eeprom_read_write_same]; omega

/-! ## Profile engine: ramping and holding -/

/-- C11: when `update_profile` runs with an active profile `p < 5`, ramping
enabled and `e` = elapsed+1 (the 16-bit sum the code forms) strictly less than
the duration `d ≤ 999` of the current step `s` (the clamped step index): the
64-pass loop followed by the shift yields `floor((32 + n·next + (64 − n)·cur) / 64)`
with `n = floor(64·e / d)`, `cur` and `next` the setpoints of steps `s` and `s+1`;
that value is the live setpoint afterwards, and the stored elapsed duration is `e`. -/
theorem ramp_setpoint (m : EEPROM) (p s e d : Nat) (cur next : Int)
    (hp : eeprom_read_config m (EEADR_SET_MENU_ITEM .rn) % 256 = p) (hp5 : p < 5)
    (hs : min (eeprom_read_config m (EEADR_SET_MENU_ITEM .St) % 256) 8 = s)
    (he : e = (eeprom_read_config m (EEADR_SET_MENU_ITEM .dh) + 1) % 65536)
    (hd : d = eeprom_read_config m (EEADR_PROFILE_DURATION p s))
    (hcur : cur = toInt16 (eeprom_read_config m (EEADR_PROFILE_SETPOINT p s)))
    (hnext : next = toInt16 (eeprom_read_config m (EEADR_PROFILE_SETPOINT p (s + 1))))
    (hlt : e < d) (hd999 : d ≤ 999)
    (hrp : eeprom_read_config m (EEADR_SET_MENU_ITEM .rP) ≠ 0) :
    (ramp_loop 64 d next cur ((e <<< 6) % 65536) 32) >>> (6 : Nat)
      = (32 + ((64 * e / d : Nat) : Int) * next + (64 - ((64 * e / d : Nat) : Int)) * cur) / 64 ∧
    toInt16 (eeprom_read_config (update_profile m) (EEADR_SET_MENU_ITEM .SP))
      = (32 + ((64 * e / d : Nat) : Int) * next + (64 - ((64 * e / d : Nat) : Int)) * cur) / 64 ∧
    eeprom_read_config (update_profile m) (EEADR_SET_MENU_ITEM .dh) = e := by
  refine ⟨?_, update_profile_ramp_values m p s e d cur next hp hp5 hs he hd hcur hnext hlt
    hd999 hrp⟩
  rw [ramp_loop_64 d e hlt (by omega), Int.shiftRight_eq_div_pow,
    show ((2 ^ 6 : Nat) : Int) = 64 by norm_num]

/-- Witness for C11: profile 0 with step 0 = (100, 4 hours), step 1 = (200, 4 hours),
ramping enabled, no hour elapsed yet: `e = 1`, `n = 16`, and the setpoint
written is `floor((32 + 16·200 + 48·100) / 64) = 125`. -/
theorem ramp_setpoint_witness :
    toInt16 (eeprom_read_config (update_profile (eedata_ramp 0)) (EEADR_SET_MENU_ITEM .SP))
      = (32 + ((64 * 1 / 4 : Nat) : Int) * 200 + (64 - ((64 * 1 / 4 : Nat) : Int)) * 100) / 64 ∧
    eeprom_read_config (update_profile (eedata_ramp 0)) (EEADR_SET_MENU_ITEM .dh) = 1 :=
  (ramp_setpoint (eedata_ramp 0) 0 0 1 4 100 200 (by decide) (by decide) (by decide)
    (by decide) (by decide) (by decide) (by decide) (by decide) (by decide) (by decide)).2

/-- C12: with ramping enabled, when the duration of the current step is twice
`e` = elapsed+1 (`e ≥ 1`, duration at most 999), the live setpoint written is
`floor((a + b + 1) / 2)` for the setpoints `a`, `b` of the current and the next
step, which exceeds the exact midpoint `(a + b) / 2` by 0 or by one half; for
a 4-hour step from 100 to 200 the setpoint written after 2 elapsed hours is 150. -/
theorem ramp_midpoint (m : EEPROM) (p s e : Nat) (a b : Int)
    (hp : eeprom_read_config m (EEADR_SET_MENU_ITEM .rn) % 256 = p) (hp5 : p < 5)
    (hs : min (eeprom_read_config m (EEADR_SET_MENU_ITEM .St) % 256) 8 = s)
    (he : e = (eeprom_read_config m (EEADR_SET_MENU_ITEM .dh) + 1) % 65536)
    (hd : 2 * e = eeprom_read_config m (EEADR_PROFILE_DURATION p s))
    (ha : a = toInt16 (eeprom_read_config m (EEADR_PROFILE_SETPOINT p s)))
    (hb : b = toInt16 (eeprom_read_config m (EEADR_PROFILE_SETPOINT p (s + 1))))
    (he1 : 1 ≤ e) (hd999 : 2 * e ≤ 999)
    (hrp : eeprom_read_config m (EEADR_SET_MENU_ITEM .rP) ≠ 0) :
    toInt16 (eeprom_read_config (update_profile m) (EEADR_SET_MENU_ITEM .SP))
      = (a + b + 1) / 2 ∧
    0 ≤ 2 * toInt16 (eeprom_read_config (update_profile m) (EEADR_SET_MENU_ITEM .SP)) - (a + b) ∧
    2 * toInt16 (eeprom_read_config (update_profile m) (EEADR_SET_MENU_ITEM .SP)) - (a + b) ≤ 1 := by
  have h := (update_profile_ramp_values m p s e (2 * e) a b hp hp5 hs he hd ha hb (by omega)
    hd999 hrp).1
  have hn : 64 * e / (2 * e) = 32 := by
    rw [show 64 * e = 32 * (2 * e) by ring]
    exact Nat.mul_div_cancel _ (by omega)
  rw [hn] at h
  have hv : (32 + ((32 : Nat) : Int) * b + (64 - ((32 : Nat) : Int)) * a) / 64 = (a + b + 1) / 2 := by
    push_cast
    omega
  rw [hv] at h
  rw [h]
  omega

/-- Witness for C12: step 0 = (100, 4 hours), step 1 = (200, 4 hours), ramping
enabled, one hour stored as elapsed: at the second hourly trigger the setpoint
written is 150. -/
theorem ramp_midpoint_witness :
    toInt16 (eeprom_read_config (update_profile (eedata_ramp 1)) (EEADR_SET_MENU_ITEM .SP))
      = 150 :=
  (ramp_midpoint (eedata_ramp 1) 0 0 2 100 200 (by decide) (by decide) (by decide)
    (by decide) (by decide) (by decide) (by decide) (by decide) (by decide) (by decide)).1

/-- C13: when `update_profile` runs with an active profile `p < 5`, ramping
disabled and elapsed+1 (the 16-bit sum the code forms) strictly less than the
duration of the current step `s` (the clamped step index): the live setpoint,
the step index and the run mode are unchanged, the elapsed-duration slot becomes
elapsed+1, and no other configuration word and no other byte cell changes. -/
theorem profile_hold (m : EEPROM) (p s : Nat)
    (hp : eeprom_read_config m (EEADR_SET_MENU_ITEM .rn) % 256 = p) (hp5 : p < 5)
    (hs : min (eeprom_read_config m (EEADR_SET_MENU_ITEM .St) % 256) 8 = s)
    (hdur : (eeprom_read_config m (EEADR_SET_MENU_ITEM .dh) + 1) % 65536
        < eeprom_read_config m (EEADR_PROFILE_DURATION p s))
    (hrp : eeprom_read_config m (EEADR_SET_MENU_ITEM .rP) = 0) :
    eeprom_read_config (update_profile m) (EEADR_SET_MENU_ITEM .SP)
      = eeprom_read_config m (EEADR_SET_MENU_ITEM .SP) ∧
    eeprom_read_config (update_profile m) (EEADR_SET_MENU_ITEM .St)
      = eeprom_read_config m (EEADR_SET_MENU_ITEM .St) ∧
    eeprom_read_config (update_profile m) (EEADR_SET_MENU_ITEM .rn)
      = eeprom_read_config m (EEADR_SET_MENU_ITEM .rn) ∧
    eeprom_read_config (update_profile m) (EEADR_SET_MENU_ITEM .dh)
      = (eeprom_read_config m (EEADR_SET_MENU_ITEM .dh) + 1) % 65536 ∧
    (∀ a, a < 128 → a ≠ EEADR_SET_MENU_ITEM .dh →
      eeprom_read_config (update_profile m) a = eeprom_read_config m a) ∧
    (∀ c, c / 2 ≠ EEADR_SET_MENU_ITEM .dh → (update_profile m).cells c = m.cells c) := by
  rw [EEADR_PROFILE_DURATION_eq] at hdur
  have hupd := update_profile_hold m p s hp hp5 hs hdur hrp
  have hframe : ∀ a, a < 128 → a ≠ 107 →
      eeprom_read_config (update_profile m) a = eeprom_read_config m a := by
    intro a ha h7
    rw [hupd, eeprom_read_write_other _ _ _ _ (by omega)]
  simp only [EEADR_SET_MENU_ITEM_eq, set_menu_enum.toNat, Nat.reduceAdd]
  refine ⟨hframe 105 (by omega) (by omega), hframe 106 (by omega) (by omega),
    hframe 112 (by omega) (by omega), ?_, hframe, ?_⟩
  · rw [hupd, eeprom_read_write_same]; omega
  · intro c h7
    have c7 := cell_of_word 107 c (by omega) h7
    rw [hupd, eeprom_write_config_cells_other _ _ _ _ c7.1 c7.2]

/-- Witness for C13: the default image running profile 0 at step 0 with 3 hours
elapsed (step 0 lasts 24 hours, ramping is off): the elapsed duration becomes 4
and the live setpoint stays. -/
theorem profile_hold_witness :
    eeprom_read_config (update_profile (eedata_running 0 3)) (EEADR_SET_MENU_ITEM .SP)
      = eeprom_read_config (eedata_running 0 3) (EEADR_SET_MENU_ITEM .SP) ∧
    eeprom_read_config (update_profile (eedata_running 0 3)) (EEADR_SET_MENU_ITEM .dh) = 4 :=
  have h := profile_hold (eedata_running 0 3) 0 0 (by decide) (by decide) (by decide)
    (by decide) (by decide)
  ⟨h.1, h.2.2.2.1⟩

/-- C14: when the low byte of the stored run mode is at least 5 (thermostat-only),
`update_profile` returns the EEPROM it was given: every byte cell is as before
and no physical write was started. -/
theorem profile_idle_no_write (m : EEPROM)
    (h : eeprom_read_config m (EEADR_SET_MENU_ITEM .rn) % 256 ≥ THERMOSTAT_MODE) :
    update_profile m = m ∧ (update_profile m).wlog = m.wlog ∧
    ∀ c, (update_profile m).cells c = m.cells c := by
  have hm : update_profile m = m :=
    update_profile_idle m (by simp only [THERMOSTAT_MODE, NO_OF_PROFILES] at h; omega)
  rw [hm]
  exact ⟨rfl, rfl, fun _ => rfl⟩

/-- Witness for C14: the default image (run mode 5) has an empty write log
after `update_profile`. -/
theorem profile_idle_no_write_witness :
    (update_profile (EEPROM.ofWords eedata)).wlog = [] :=
  (profile_idle_no_write (EEPROM.ofWords eedata) (by decide)).2.1

/-! ## Lemmas on the temperature sampler -/

theorem raw_sample_eq (ADRESH ADRESL : Nat) (hH : ADRESH < 256) (hL : ADRESL < 256) :
    (((ADRESH % 256) <<< 8) % 65536) ||| (ADRESL % 256) = 256 * ADRESH + ADRESL := by
  have h1 : ((ADRESH % 256) <<< 8) % 65536 = 2 ^ 8 * ADRESH := by
    rw [Nat.shiftLeft_eq]; omega
  rw [h1, Nat.mod_eq_of_lt hL, ← Nat.mul_add_lt_is_or (by simpa using hL) ADRESH]

theorem ad_index_a (x : Nat) : (x >>> (AD_FILTER_SHIFT - 1)) &&& 0x3f = (x / 32) % 64 := by
  have h := Nat.and_pow_two_sub_one_eq_mod (x >>> 5) 6
  simp only [AD_FILTER_SHIFT]
  rw [show (0x3f : Nat) = 2 ^ 6 - 1 by norm_num, h, Nat.shiftRight_eq_div_pow]

theorem ad_index_b (x : Nat) : (x >>> (AD_FILTER_SHIFT + 5)) &&& 0x1f = (x / 2048) % 32 := by
  have h := Nat.and_pow_two_sub_one_eq_mod (x >>> 11) 5
  simp only [AD_FILTER_SHIFT]
  rw [show (0x1f : Nat) = 2 ^ 5 - 1 by norm_num, h, Nat.shiftRight_eq_div_pow]

/-- When both table entries exist, the loop adds the entry at `b + 1` in the
passes with `i < a` and the entry at `b` in the others. -/
theorem ad_to_temp_loop_eq (a b : Nat) (v0 v1 : Int)
    (h0 : ad_lookup[b]? = some v0) (h1 : ad_lookup[b + 1]? = some v1) (n : Nat) :
    ∀ (i : Nat) (temp : Int),
      ad_to_temp_loop n i a b temp
        = some (temp + ((n : Int) - ((min n (a - i) : Nat) : Int)) * v0
            + ((min n (a - i) : Nat) : Int) * v1) := by
  induction n with
  | zero => intro i temp; simp [ad_to_temp_loop]
  | succ n ih =>
    intro i temp
    by_cases h : a ≤ i
    · have hk : min (n + 1) (a - i) = 0 := by omega
      have hk' : min n (a - (i + 1)) = 0 := by omega
      rw [ad_to_temp_loop, if_pos h, h0]
      simp only
      rw [ih, hk, hk']
      push_cast
      simp only [sub_zero, zero_mul, add_zero]
      congr 1
      ring
    · have hk : min (n + 1) (a - i) = min n (a - (i + 1)) + 1 := by omega
      rw [ad_to_temp_loop, if_neg h, h1]
      simp only
      rw [ih, hk]
      push_cast
      congr 1
      ring

/-- With `a = 0` the loop reads only the entry at `b`. -/
theorem ad_to_temp_loop_zero (b : Nat) (v0 : Int) (h0 : ad_lookup[b]? = some v0) (n : Nat) :
    ∀ (i : Nat) (temp : Int),
      ad_to_temp_loop n i 0 b temp = some (temp + (n : Int) * v0) := by
  induction n with
  | zero => intro i temp; simp [ad_to_temp_loop]
  | succ n ih =>
    intro i temp
    rw [ad_to_temp_loop, if_pos (Nat.zero_le i), h0]
    simp only
    rw [ih]
    push_cast
    congr 1
    ring

theorem ad_lookup_get (b : Nat) (hb : b ≤ 31) :
    ad_lookup[b]? = some (ad_lookup.getD b 0) ∧
    -486 ≤ ad_lookup.getD b 0 ∧ ad_lookup.getD b 0 ≤ 1482 := by
  interval_cases b <;> decide

theorem ad_to_temp_eq (x : Nat) (hb : (x / 2048) % 32 ≤ 30) :
    ad_to_temp x
      = some ((32 + (64 - (((x / 32) % 64 : Nat) : Int)) * ad_lookup.getD ((x / 2048) % 32) 0
          + (((x / 32) % 64 : Nat) : Int) * ad_lookup.getD ((x / 2048) % 32 + 1) 0) / 64) := by
  obtain ⟨h0, l0, u0⟩ := ad_lookup_get ((x / 2048) % 32) (by omega)
  obtain ⟨h1, l1, u1⟩ := ad_lookup_get ((x / 2048) % 32 + 1) (by omega)
  have ha : (x / 32) % 64 < 64 := Nat.mod_lt _ (by norm_num)
  unfold ad_to_temp
  simp only [ad_index_a, ad_index_b]
  rw [ad_to_temp_loop_eq _ _ _ _ h0 h1]
  simp only [Nat.sub_zero]
  rw [Nat.min_eq_right (by omega), Int.shiftRight_eq_div_pow,
    show ((2 ^ 6 : Nat) : Int) = 64 by norm_num]
  generalize ad_lookup.getD ((x / 2048) % 32) 0 = v0 at *
  generalize ad_lookup.getD ((x / 2048) % 32 + 1) 0 = v1 at *
  generalize (x / 32) % 64 = a at *
  have hbet := ramp_value_between a (by omega) v1 v0
  have hform : (32 + (((64 : Nat) : Int) - (a : Int)) * v0 + (a : Int) * v1)
      = 32 + (a : Int) * v1 + (64 - (a : Int)) * v0 := by
    push_cast; ring
  have hform' : (32 + (64 - (a : Int)) * v0 + (a : Int) * v1)
      = 32 + (a : Int) * v1 + (64 - (a : Int)) * v0 := by ring
  rw [hform, hform']
  congr 1
  unfold wrap16
  omega

/-! ## Temperature sampler: theorems -/

/-- C15: for every 16-bit accumulator and every content of the two 8-bit result
registers, `read_ad` returns accumulator − (accumulator >> 6) + raw_sample modulo
2^16, where raw_sample = `(ADRESH << 8) | ADRESL` is the 16-bit value
`256·ADRESH + ADRESL`. -/
theorem read_ad_filter (adfilter ADRESH ADRESL : Nat) (hacc : adfilter < 65536)
    (hH : ADRESH < 256) (hL : ADRESL < 256) :
    (ADRESH <<< 8) ||| ADRESL = 256 * ADRESH + ADRESL ∧
    read_ad adfilter ADRESH ADRESL
      = (adfilter - (adfilter >>> 6) + ((ADRESH <<< 8) ||| ADRESL)) % 65536 ∧
    ((read_ad adfilter ADRESH ADRESL : Nat) : Int)
      = ((adfilter : Int) - ((adfilter / 64 : Nat) : Int) + (256 * ADRESH + ADRESL)) % 65536 := by
  have hraw := raw_sample_eq ADRESH ADRESL hH hL
  have hraw' : (ADRESH <<< 8) ||| ADRESL = 256 * ADRESH + ADRESL := by
    rw [← hraw, Nat.mod_eq_of_lt hH, Nat.mod_eq_of_lt hL]
    congr 1
    rw [Nat.shiftLeft_eq]; omega
  have hsh : adfilter >>> 6 = adfilter / 64 := by
    rw [Nat.shiftRight_eq_div_pow]
  refine ⟨hraw', ?_, ?_⟩
  · unfold read_ad
    rw [hraw, hraw', AD_FILTER_SHIFT]
  · unfold read_ad
    rw [hraw, AD_FILTER_SHIFT, hsh]
    omega

/-- Witness for C15: the start-up accumulator 0x7fff and a mid-scale sample
(`ADRESH` = 2, `ADRESL` = 0, raw 512). -/
theorem read_ad_filter_witness :
    read_ad 0x7fff 2 0 = (0x7fff - (0x7fff >>> 6) + ((2 <<< 8) ||| 0)) % 65536 :=
  (read_ad_filter 0x7fff 2 0 (by decide) (by decide) (by decide)).2.1

/-- C16: for every accumulator whose table indices `b` and `b + 1` are
inside the table (`b ≤ 30`), `ad_to_temp` returns
`floor((32 + (64 − a)·T[b] + a·T[b+1]) / 64)` with `a` = bits 5..10 and `b` =
bits 11..15 of the accumulator and `T` the table `ad_lookup`; for `a = 0` the
result is exactly `T[b]`; and an accumulator that differs only in its lowest 5
bits gives the same result. -/
theorem ad_to_temp_interpolates (adfilter a b : Nat)
    (ha : a = (adfilter >>> 5) % 64) (hb : b = (adfilter >>> 11) % 32) (hb30 : b + 1 ≤ 31) :
    ad_to_temp adfilter
      = some ((32 + (64 - (a : Int)) * ad_lookup.getD b 0
          + (a : Int) * ad_lookup.getD (b + 1) 0) / 64) ∧
    (a = 0 → ad_to_temp adfilter = some (ad_lookup.getD b 0)) ∧
    (∀ y, y >>> 5 = adfilter >>> 5 → ad_to_temp y = ad_to_temp adfilter) := by
  simp only [Nat.shiftRight_eq_div_pow, Nat.reducePow] at ha hb ⊢
  have hmain := ad_to_temp_eq adfilter (by omega)
  rw [← ha, ← hb] at hmain
  refine ⟨hmain, ?_, ?_⟩
  · intro h0
    rw [hmain, h0]
    congr 1
    push_cast
    omega
  · intro y hy
    have hyb : (y / 2048) % 32 = b := by omega
    have hya : (y / 32) % 64 = a := by omega
    have hy' := ad_to_temp_eq y (by omega)
    rw [hya, hyb] at hy'
    rw [hy', hmain]

/-- Witness for C16: the start-up accumulator 0x7fff has `a` = 63 and `b` = 15,
between the table entries 217 and 250. -/
theorem ad_to_temp_interpolates_witness :
    ad_to_temp 0x7fff
      = some ((32 + (64 - ((63 : Nat) : Int)) * ad_lookup.getD 15 0
          + ((63 : Nat) : Int) * ad_lookup.getD (15 + 1) 0) / 64) :=
  (ad_to_temp_interpolates 0x7fff 63 15 (by decide) (by decide) (by decide)).1

theorem check_ad_range_iff (ad_value : Nat) (h : ad_value < 65536) :
    check_ad_range ad_value = true ↔ (ad_value / 256 ≤ 8 ∨ 248 ≤ ad_value / 256) := by
  unfold check_ad_range
  simp only [AD_FILTER_SHIFT, Nat.shiftRight_eq_div_pow, Nat.reduceAdd, Nat.reducePow,
    Bool.or_eq_true, decide_eq_true_eq]
  omega

/-- C17 (counterexample): the accumulator 0xf700 has most-significant byte 247,
which is within 8 counts of 255, yet `check_ad_range` is false for it. -/
theorem check_ad_range_at_247 :
    (0xf700 : Nat) >>> 8 = 247 ∧ 255 - 247 ≤ 8 ∧ check_ad_range 0xf700 = false := by
  decide

/-- C17 (amended): for every 16-bit accumulator, `check_ad_range` is true exactly
when the most-significant byte (accumulator >> 8) is at most 8, that is within
8 counts of 0, or at least 248, that is within 7 counts of 255. -/
theorem check_ad_range_rails (ad_value : Nat) (h : ad_value < 65536) :
    check_ad_range ad_value = true ↔ (ad_value >>> 8 ≤ 8 ∨ 248 ≤ ad_value >>> 8) := by
  have hi := check_ad_range_iff ad_value h
  simp only [Nat.shiftRight_eq_div_pow, Nat.reducePow]
  exact hi

/-- Witness for C17 (amended): most-significant byte 248 is a fault. -/
theorem check_ad_range_rails_witness :
    check_ad_range 0xf800 = true ↔ ((0xf800 : Nat) >>> 8 ≤ 8 ∨ 248 ≤ (0xf800 : Nat) >>> 8) :=
  check_ad_range_rails 0xf800 (by decide)

/-- C18: the accumulator `64·raw` is a fixed point of the filter for a constant
10-bit sample `raw`; for `raw ≤ 35` and for `992 ≤ raw ≤ 1023` it is reported as a
fault by `check_ad_range`; no 16-bit accumulator whose most-significant byte is
between 9 and 247 is reported as a fault, in particular not the start-up value
0x7fff. -/
theorem fault_boundary :
    (∀ ADRESH ADRESL, ADRESH < 4 → ADRESL < 256 →
      read_ad (64 * (256 * ADRESH + ADRESL)) ADRESH ADRESL = 64 * (256 * ADRESH + ADRESL)) ∧
    (∀ raw, raw ≤ 35 → check_ad_range (64 * raw) = true) ∧
    (∀ raw, 992 ≤ raw → raw ≤ 1023 → check_ad_range (64 * raw) = true) ∧
    (∀ ad_value, ad_value < 65536 → 9 ≤ ad_value >>> 8 → ad_value >>> 8 ≤ 247 →
      check_ad_range ad_value = false) ∧
    check_ad_range 0x7fff = false := by
  refine ⟨?_, ?_, ?_, ?_, by decide⟩
  · intro H L hH hL
    unfold read_ad
    rw [raw_sample_eq H L (by omega) hL, AD_FILTER_SHIFT, Nat.shiftRight_eq_div_pow]
    omega
  · intro raw h
    rw [check_ad_range_iff _ (by omega)]
    omega
  · intro raw h1 h2
    rw [check_ad_range_iff _ (by omega)]
    omega
  · intro x hx h1 h2
    simp only [Nat.shiftRight_eq_div_pow, Nat.reducePow] at h1 h2
    have hi := check_ad_range_iff x hx
    cases hc : check_ad_range x
    · rfl
    · rw [hc] at hi
      have := hi.mp rfl
      omega

/-- C19 (evaluation at the failing input): the accumulator 65472 = 64·1023, the
fixed point of the filter for a full-scale sample, has table index `b` = 31 and
fraction `a` = 62; `ad_to_temp` then reads `ad_lookup[32]`, which the 32-entry
table does not have, and has no result. The same holds from 63520 = 0xf820 on. -/
theorem ad_to_temp_reads_past_table :
    read_ad 65472 3 255 = 65472 ∧
    (65472 >>> (AD_FILTER_SHIFT + 5)) &&& 0x1f = 31 ∧
    (65472 >>> (AD_FILTER_SHIFT - 1)) &&& 0x3f = 62 ∧
    ad_lookup.length = 32 ∧
    ad_lookup[31 + 1]? = none ∧
    ad_to_temp 65472 = none ∧
    ad_to_temp 0xf820 = none := by
  decide

/-! ## EEPROM round trip -/

/-- C20: for every config address in [0,127] and every 16-bit value `v`,
`eeprom_write_config(address, v)` followed by `eeprom_read_config(address)` returns
`v`; afterwards byte cell `2·address` holds the low byte of `v` and byte cell
`2·address + 1` the high byte. -/
theorem eeprom_round_trip (m : EEPROM) (address v : Nat) (ha : address < 128)
    (hv : v < 65536) :
    eeprom_read_config (eeprom_write_config m address v) address = v ∧
    (eeprom_write_config m address v).cells (2 * address) % 256 = v % 256 ∧
    (eeprom_write_config m address v).cells (2 * address + 1) % 256 = v / 256 := by
  have hl : cell_lo address = 2 * address := by rw [cell_lo_eq]; omega
  have hr := eeprom_read_write_same m address v
  rw [Nat.mod_eq_of_lt hv] at hr
  refine ⟨hr, ?_, ?_⟩
  · rw [eeprom_read_config_eq, hl] at hr
    omega
  · rw [eeprom_read_config_eq, hl] at hr
    omega

/-- Witness for C20: the value 0xfe70 (−400 as an `int`) written to the live
setpoint slot of the default image. -/
theorem eeprom_round_trip_witness :
    eeprom_read_config (eeprom_write_config (EEPROM.ofWords eedata) 105 0xfe70) 105 = 0xfe70 :=
  (eeprom_round_trip (EEPROM.ofWords eedata) 105 0xfe70 (by decide) (by decide)).1

/-! ## EEPROM: repeated writes and frame -/

/-- C21 (counterexample): the live setpoint slot 105 of the default image
already holds 200; writing 200 to it twice starts no physical write at all. -/
theorem eeprom_write_twice_no_commit :
    eeprom_read_config (EEPROM.ofWords eedata) 105 = 200 ∧
    (eeprom_write_config (eeprom_write_config (EEPROM.ofWords eedata) 105 200) 105 200).wlog
      = [] := by
  decide

/-- C21 (amended): for every config address in [0,127] and 16-bit value `v`, the
second of two calls `eeprom_write_config(address, v)` finds the stored value equal
to `v` and writes no byte cell; in total the two calls perform one two-byte
commit (cell `2·address` then cell `2·address + 1`) when the slot did not hold
`v` before the first call, and no physical write when it did. -/
theorem eeprom_write_twice (m : EEPROM) (address v : Nat) (ha : address < 128)
    (hv : v < 65536) :
    eeprom_write_config (eeprom_write_config m address v) address v
      = eeprom_write_config m address v ∧
    (eeprom_read_config m address ≠ v →
      (eeprom_write_config (eeprom_write_config m address v) address v).wlog
        = m.wlog ++ [(2 * address, v % 256), (2 * address + 1, v / 256)]) ∧
    (eeprom_read_config m address = v →
      (eeprom_write_config (eeprom_write_config m address v) address v).wlog = m.wlog) := by
  have hl : cell_lo address = 2 * address := by rw [cell_lo_eq]; omega
  have hsecond : eeprom_write_config (eeprom_write_config m address v) address v
      = eeprom_write_config m address v :=
    eeprom_write_config_of_eq _ _ _ (eeprom_read_write_same m address v).symm
  refine ⟨hsecond, ?_, ?_⟩
  · intro hne
    rw [hsecond, eeprom_write_config_of_ne m address v (by rw [Nat.mod_eq_of_lt hv]; exact Ne.symm hne)]
    have h1 : v % 65536 % 256 = v % 256 := by omega
    have h2 : ((v % 65536) >>> 8) % 256 = v / 256 := by
      rw [Nat.shiftRight_eq_div_pow]; omega
    simp only [eeprom_commit, hl, h1, h2, List.append_assoc, List.singleton_append]
  · intro heq
    rw [hsecond, eeprom_write_config_of_eq m address v (by rw [Nat.mod_eq_of_lt hv]; exact heq.symm)]

/-- Witness for C21 (amended): writing 201 twice to slot 105 of the default
image (which holds 200) commits the two bytes once. -/
theorem eeprom_write_twice_witness :
    (eeprom_write_config (eeprom_write_config (EEPROM.ofWords eedata) 105 201) 105 201).wlog
      = (EEPROM.ofWords eedata).wlog ++ [(2 * 105, 201 % 256), (2 * 105 + 1, 201 / 256)] :=
  (eeprom_write_twice (EEPROM.ofWords eedata) 105 201 (by decide) (by decide)).2.1 (by decide)

/-- C22: for every pair of distinct config addresses `a ≠ a'` in [0,127] and
every value `v`, `eeprom_write_config(a, v)` leaves the value returned by
`eeprom_read_config(a')` unchanged, and every byte cell other than `2a` and
`2a + 1` keeps its content. -/
theorem eeprom_write_frame (m : EEPROM) (a a' v : Nat) (ha : a < 128) (ha' : a' < 128)
    (hne : a ≠ a') :
    eeprom_read_config (eeprom_write_config m a v) a' = eeprom_read_config m a' ∧
    (∀ c, c ≠ 2 * a → c ≠ 2 * a + 1 → (eeprom_write_config m a v).cells c = m.cells c) := by
  have hl : cell_lo a = 2 * a := by rw [cell_lo_eq]; omega
  refine ⟨eeprom_read_write_other m a a' v (by omega), ?_⟩
  intro c h0 h1
  exact eeprom_write_config_cells_other m a v c (by omega) (by omega)

/-- Witness for C22: writing the live setpoint (slot 105) of the default image
leaves the hysteresis (slot 100) as it was. -/
theorem eeprom_write_frame_witness :
    eeprom_read_config (eeprom_write_config (EEPROM.ofWords eedata) 105 300) 100
      = eeprom_read_config (EEPROM.ofWords eedata) 100 :=
  (eeprom_write_frame (EEPROM.ofWords eedata) 105 100 300 (by decide) (by decide)
    (by decide)).1

/-! ## Setpoint alarm -/

/-- The 16-bit difference of the alarm block is the exact difference when that
one is representable. -/
theorem alarm_diff_eq (temperature : Int) (n : Nat) (hn : n < 65536)
    (ht : -32768 ≤ temperature ∧ temperature ≤ 32767)
    (hd : -32768 ≤ temperature - toInt16 n ∧ temperature - toInt16 n ≤ 32767) :
    toInt16 ((toU16 temperature + 65536 - n) % 65536) = temperature - toInt16 n := by
  unfold toInt16 toU16 at *
  split_ifs at * <;> omega

/-- C23: when the stored alarm threshold `sa` is nonzero, the setpoint-alarm
block sets the flag from `diff = |reading1 − live setpoint|`: for `sa < 0` the flag
is true exactly when `diff ≤ |sa|`, for `sa > 0` exactly when `diff ≥ sa`. The
reading is an `int`, the difference reading1 − setpoint is representable in 16
bits, and `sa` is not −32768 (all of which hold for values within the slots'
ranges). -/
theorem setpoint_alarm_semantics (m : EEPROM) (temperature sa setpoint : Int)
    (setpoint_alarm : Bool)
    (hsa : sa = toInt16 (eeprom_read_config m (EEADR_SET_MENU_ITEM .SA)))
    (hsp : setpoint = toInt16 (eeprom_read_config m (EEADR_SET_MENU_ITEM .SP)))
    (hnz : sa ≠ 0)
    (ht : -32768 ≤ temperature ∧ temperature ≤ 32767)
    (hd : -32767 ≤ temperature - setpoint ∧ temperature - setpoint ≤ 32767)
    (hmin : -32767 ≤ sa) :
    (sa < 0 → (main_setpoint_alarm m temperature setpoint_alarm = true
        ↔ |temperature - setpoint| ≤ |sa|)) ∧
    (sa > 0 → (main_setpoint_alarm m temperature setpoint_alarm = true
        ↔ |temperature - setpoint| ≥ sa)) := by
  have hdiff := alarm_diff_eq temperature (eeprom_read_config m (EEADR_SET_MENU_ITEM .SP))
    (eeprom_read_config_lt m _) ht (by rw [← hsp]; omega)
  have hsau := toInt16_lt (eeprom_read_config m (EEADR_SET_MENU_ITEM .SA))
  rw [← hsa] at hsau
  unfold main_setpoint_alarm
  simp only [← hsa, hdiff, ← hsp, hnz, ne_eq, not_false_eq_true, if_true]
  constructor
  · intro hneg
    rw [if_pos hneg, decide_eq_true_eq, abs_of_neg hneg]
    have hw : wrap16 (-sa) = -sa := by unfold wrap16; omega
    rw [hw]
    by_cases h0 : temperature - setpoint < 0
    · rw [if_pos h0, abs_of_neg h0]
      have hw' : wrap16 (-(temperature - setpoint)) = -(temperature - setpoint) := by
        unfold wrap16; omega
      rw [hw']
    · rw [if_neg h0, abs_of_nonneg (by omega)]
  · intro hpos
    rw [if_neg (by omega), decide_eq_true_eq]
    by_cases h0 : temperature - setpoint < 0
    · rw [if_pos h0, abs_of_neg h0]
      have hw' : wrap16 (-(temperature - setpoint)) = -(temperature - setpoint) := by
        unfold wrap16; omega
      rw [hw']
    · rw [if_neg h0, abs_of_nonneg (by omega)]

/-- Witness for C23: threshold −5 ("alarm inside the band"), setpoint 200,
reading 196: the flag is set exactly when `|196 − 200| ≤ |−5|`. -/
theorem setpoint_alarm_semantics_witness :
    main_setpoint_alarm (eeprom_write_config (EEPROM.ofWords eedata) 104 (toU16 (-5))) 196 false
        = true
      ↔ |(196 : Int) - 200| ≤ |(-5 : Int)| :=
  (setpoint_alarm_semantics (eeprom_write_config (EEPROM.ofWords eedata) 104 (toU16 (-5)))
    196 (-5) 200 false (by decide) (by decide) (by decide) (by decide) (by decide)
    (by decide)).1 (by decide)

/-- C24 (evaluation at the failing input): on the default image the alarm
threshold `SA` is 0; with the flag set before the block (reading 300, setpoint
200), the flag is still set after it. With a flag that is clear before, it stays
clear. -/
theorem setpoint_alarm_stays_set :
    toInt16 (eeprom_read_config (EEPROM.ofWords eedata) (EEADR_SET_MENU_ITEM .SA)) = 0 ∧
    main_setpoint_alarm (EEPROM.ofWords eedata) 300 true = true ∧
    main_setpoint_alarm (EEPROM.ofWords eedata) 300 false = false := by
  decide

/-! ## Address schema -/

/-- C25: the address schema is well formed. For profiles `p < 5` and steps
`s ≤ 8` the setpoint and duration addresses are pairwise distinct over all
(profile, step, field) and lie below `EEADR_SET_MENU`; the 13 settings of
`SET_MENU_DATA` (hy, hy2, tc, tc2, SA, SP, St, dh, cd, hd, rP, Pb, rn) occupy the
consecutive addresses 100..112 from `EEADR_SET_MENU` in that order; the power-on
flag is the single address 127, different from all of them; and every one of
these addresses is in [0,127]. -/
theorem address_schema :
    (∀ p s f p' s' f', p < 5 → s ≤ 8 → f ≤ 1 → p' < 5 → s' ≤ 8 → f' ≤ 1 →
      EEADR_PROFILE_SETPOINT p s + f = EEADR_PROFILE_SETPOINT p' s' + f' →
      p = p' ∧ s = s' ∧ f = f') ∧
    (∀ p s, p < 5 → s ≤ 8 →
      EEADR_PROFILE_DURATION p s = EEADR_PROFILE_SETPOINT p s + 1 ∧
      EEADR_PROFILE_SETPOINT p s < EEADR_SET_MENU ∧
      EEADR_PROFILE_DURATION p s < EEADR_SET_MENU) ∧
    EEADR_SET_MENU = 100 ∧
    SET_MENU_DATA.map EEADR_SET_MENU_ITEM = List.range' EEADR_SET_MENU 13 ∧
    (∀ name : set_menu_enum, name ∈ SET_MENU_DATA) ∧
    (∀ name name' : set_menu_enum,
      EEADR_SET_MENU_ITEM name = EEADR_SET_MENU_ITEM name' → name = name') ∧
    (∀ name : set_menu_enum,
      EEADR_SET_MENU ≤ EEADR_SET_MENU_ITEM name ∧ EEADR_SET_MENU_ITEM name < EEADR_POWER_ON) ∧
    EEADR_POWER_ON = 127 ∧
    eedata.length = EEADR_SET_MENU + SET_MENU_DATA.length := by
  refine ⟨?_, ?_, by decide, by decide, ?_, ?_, ?_, rfl, by decide⟩
  · intro p s f p' s' f' hp hs hf hp' hs' hf' h
    rw [EEADR_PROFILE_SETPOINT_eq, EEADR_PROFILE_SETPOINT_eq] at h
    omega
  · intro p s hp hs
    have h100 : EEADR_SET_MENU = 100 := by decide
    rw [EEADR_PROFILE_DURATION_eq, EEADR_PROFILE_SETPOINT_eq, h100]
    omega
  · intro name
    cases name <;> decide
  · intro name name' h
    rw [EEADR_SET_MENU_ITEM_eq, EEADR_SET_MENU_ITEM_eq] at h
    cases name <;> cases name' <;> first | rfl | (exfalso; revert h; decide)
  · intro name
    have h100 : EEADR_SET_MENU = 100 := by decide
    rw [EEADR_SET_MENU_ITEM_eq, h100, EEADR_POWER_ON]
    cases name <;> decide

/-! ## Filter range -/

/-- C29: for every accumulator in [0, 65535] and every raw sample in the 10-bit
range [0, 1023] (`ADRESH` ≤ 3), accumulator − (accumulator >> 6) + raw does not
exceed 65535, and the value `read_ad` returns is that exact sum, without a wrap. -/
theorem read_ad_no_wrap (adfilter ADRESH ADRESL : Nat) (hacc : adfilter ≤ 65535)
    (hH : ADRESH ≤ 3) (hL : ADRESL ≤ 255) :
    256 * ADRESH + ADRESL ≤ 1023 ∧
    adfilter - (adfilter >>> 6) + (256 * ADRESH + ADRESL) ≤ 65535 ∧
    read_ad adfilter ADRESH ADRESL = adfilter - (adfilter >>> 6) + (256 * ADRESH + ADRESL) ∧
    ((read_ad adfilter ADRESH ADRESL : Nat) : Int)
      = (adfilter : Int) - ((adfilter >>> 6 : Nat) : Int) + (256 * ADRESH + ADRESL) := by
  have hsh : adfilter >>> 6 = adfilter / 64 := by
    rw [Nat.shiftRight_eq_div_pow]
  have hraw := raw_sample_eq ADRESH ADRESL (by omega) (by omega)
  unfold read_ad
  rw [hraw, AD_FILTER_SHIFT, hsh]
  omega

/-- Witness for C29: the largest accumulator with the largest sample stays at
65535. -/
theorem read_ad_no_wrap_witness :
    read_ad 65535 3 255 = 65535 - (65535 >>> 6) + (256 * 3 + 255) :=
  (read_ad_no_wrap 65535 3 255 (by decide) (by decide) (by decide)).2.2.1

/-! ## Sequential and independent evaluation of the eligibilities -/

theorem add16_of_range (a b : Int) (h : -32768 ≤ a + b ∧ a + b ≤ 32767) : add16 a b = a + b := by
  unfold add16 wrap16; omega

theorem sub16_of_range (a b : Int) (h : -32768 ≤ a - b ∧ a - b ≤ 32767) : sub16 a b = a - b := by
  unfold sub16 wrap16; omega

/-- C27: for every configuration with hysteresis1 ≥ 0 and setpoint ± hysteresis1
representable in 16 bits (no overflow), cooling eligibility and heating
eligibility are never both true, and the tick of the code, which tests heating
only when cooling is not eligible, gives the same state (relays, countdowns and
indicator bits) as the tick that evaluates the two eligibilities independently. -/
theorem sequential_is_independent (m : EEPROM) (temperature temperature2 : Int)
    (s : ThermostatState) (setpoint hysteresis hysteresis2 : Int) (probe2 : Nat)
    (hsp : setpoint = toInt16 (eeprom_read_config m (EEADR_SET_MENU_ITEM .SP)))
    (hhy : hysteresis = toInt16 (eeprom_read_config m (EEADR_SET_MENU_ITEM .hy)))
    (hhy2 : hysteresis2 = toInt16 (eeprom_read_config m (EEADR_SET_MENU_ITEM .hy2)))
    (hpb : probe2 = eeprom_read_config m (EEADR_SET_MENU_ITEM .Pb) % 256)
    (hnonneg : 0 ≤ hysteresis)
    (hlo : -32768 ≤ setpoint - hysteresis) (hhi : setpoint + hysteresis ≤ 32767) :
    ¬ ((temperature > add16 setpoint hysteresis ∧
          (probe2 = 0 ∨ temperature2 ≥ sub16 setpoint (hysteresis2 >>> (2 : Nat)))) ∧
       (temperature < sub16 setpoint hysteresis ∧
          (probe2 = 0 ∨ temperature2 ≤ add16 setpoint (hysteresis2 >>> (2 : Nat))))) ∧
    temperature_control m temperature temperature2 s
      = temperature_control_independent m temperature temperature2 s := by
  have ha : add16 setpoint hysteresis = setpoint + hysteresis :=
    add16_of_range _ _ (by omega)
  have hs : sub16 setpoint hysteresis = setpoint - hysteresis :=
    sub16_of_range _ _ (by omega)
  constructor
  · rw [ha, hs]
    intro h
    omega
  · rcases s with ⟨c, h, cd, hd, ec, eh⟩
    unfold temperature_control temperature_control_independent
    simp only [← hsp, ← hhy, ← hhy2, ← hpb, ha, hs, dec_eq_pred]
    split
    · rfl
    · split
      · by_cases hc : temperature > setpoint + hysteresis
        · have hh : ¬ temperature < setpoint - hysteresis := by omega
          by_cases hp2 : probe2 = 0 ∨ temperature2 ≥ sub16 setpoint (hysteresis2 >>> (2 : Nat))
          · by_cases hcd : cd - 1 = 0 <;> simp [hc, hh, hp2, hcd]
          · simp [hc, hh, hp2]
        · by_cases hh : temperature < setpoint - hysteresis
          · by_cases hp2 : probe2 = 0 ∨ temperature2 ≤ add16 setpoint (hysteresis2 >>> (2 : Nat))
            · by_cases hhd : hd - 1 = 0 <;> simp [hc, hh, hp2, hhd]
            · simp [hc, hh, hp2]
          · simp [hc, hh]
      · rfl

/-- Witness for C27 on the default image (setpoint 200, hysteresis 5): both
relays off, reading1 = 190, heating countdown 0. -/
theorem sequential_is_independent_witness :
    temperature_control (EEPROM.ofWords eedata) 190 0 ⟨false, false, 4, 0, true, true⟩
      = temperature_control_independent (EEPROM.ofWords eedata) 190 0
          ⟨false, false, 4, 0, true, true⟩ :=
  (sequential_is_independent (EEPROM.ofWords eedata) 190 0 ⟨false, false, 4, 0, true, true⟩
    200 5 50 0 (by decide) (by decide) (by decide) (by decide) (by decide) (by decide)
    (by decide)).2

/-! ## Range of the values written by the profile engine -/

/-- C28: when the setpoints of the running profile `p < 5` (steps 0..8 and the
closing setpoint of slot 9) are within [`TEMP_MIN`, `TEMP_MAX`], its step
durations within [0,999], the stored step index `s` within [0,8] and the stored
elapsed duration within [0,999], then after `update_profile`: the live setpoint
is either untouched or lies between the setpoints of step `s` and step `s+1`
(inclusive) and hence in [`TEMP_MIN`, `TEMP_MAX`]; the step index is in [0,8], the
elapsed duration in [0,999], the run mode in [0,5]; and no byte cell outside
these four slots has changed. -/
theorem update_profile_writes_in_range (m : EEPROM) (p s : Nat) (cur next : Int)
    (hrn : eeprom_read_config m (EEADR_SET_MENU_ITEM .rn) = p) (hp5 : p < 5)
    (hst : eeprom_read_config m (EEADR_SET_MENU_ITEM .St) = s) (hs8 : s ≤ 8)
    (hdh : eeprom_read_config m (EEADR_SET_MENU_ITEM .dh) ≤ 999)
    (hsp : ∀ k, k ≤ 9 →
      TEMP_MIN ≤ toInt16 (eeprom_read_config m (EEADR_PROFILE_SETPOINT p k)) ∧
      toInt16 (eeprom_read_config m (EEADR_PROFILE_SETPOINT p k)) ≤ TEMP_MAX)
    (hdur : ∀ k, k ≤ 8 → eeprom_read_config m (EEADR_PROFILE_DURATION p k) ≤ 999)
    (hcur : cur = toInt16 (eeprom_read_config m (EEADR_PROFILE_SETPOINT p s)))
    (hnext : next = toInt16 (eeprom_read_config m (EEADR_PROFILE_SETPOINT p (s + 1)))) :
    (eeprom_read_config (update_profile m) (EEADR_SET_MENU_ITEM .SP)
        = eeprom_read_config m (EEADR_SET_MENU_ITEM .SP) ∨
      (min cur next ≤ toInt16 (eeprom_read_config (update_profile m) (EEADR_SET_MENU_ITEM .SP)) ∧
       toInt16 (eeprom_read_config (update_profile m) (EEADR_SET_MENU_ITEM .SP)) ≤ max cur next ∧
       TEMP_MIN ≤ toInt16 (eeprom_read_config (update_profile m) (EEADR_SET_MENU_ITEM .SP)) ∧
       toInt16 (eeprom_read_config (update_profile m) (EEADR_SET_MENU_ITEM .SP)) ≤ TEMP_MAX)) ∧
    eeprom_read_config (update_profile m) (EEADR_SET_MENU_ITEM .St) ≤ 8 ∧
    eeprom_read_config (update_profile m) (EEADR_SET_MENU_ITEM .dh) ≤ 999 ∧
    eeprom_read_config (update_profile m) (EEADR_SET_MENU_ITEM .rn) ≤ 5 ∧
    (∀ c, c / 2 ≠ EEADR_SET_MENU_ITEM .SP → c / 2 ≠ EEADR_SET_MENU_ITEM .St →
      c / 2 ≠ EEADR_SET_MENU_ITEM .dh → c / 2 ≠ EEADR_SET_MENU_ITEM .rn →
      (update_profile m).cells c = m.cells c) := by
  have hp : eeprom_read_config m (EEADR_SET_MENU_ITEM .rn) % 256 = p := by rw [hrn]; omega
  have hs : min (eeprom_read_config m (EEADR_SET_MENU_ITEM .St) % 256) 8 = s := by
    rw [hst]; omega
  have hcr := hsp s (by omega)
  have hnr := hsp (s + 1) (by omega)
  have hd := hdur s hs8
  rw [← hcur] at hcr
  rw [← hnext] at hnr
  have hbetween : min cur next ≤ next ∧ next ≤ max cur next :=
    ⟨min_le_right _ _, le_max_right _ _⟩
  have hcells : ∀ (m0 : EEPROM) (a v c : Nat), a < 128 → c / 2 ≠ a →
      (eeprom_write_config m0 a v).cells c = m0.cells c := by
    intro m0 a v c ha hc
    have hcw := cell_of_word a c ha hc
    exact eeprom_write_config_cells_other m0 a v c hcw.1 hcw.2
  have hnext' : next = toInt16 (eeprom_read_config m (20 * p + 2 * s + 2)) := by
    rw [hnext, EEADR_PROFILE_SETPOINT_eq, show 20 * p + 2 * (s + 1) = 20 * p + 2 * s + 2 by ring]
  rw [EEADR_PROFILE_DURATION_eq] at hd
  have hX := eeprom_read_config_lt m (20 * p + 2 * s + 2)
  simp only [TEMP_MIN, TEMP_MAX] at hcr hnr ⊢
  by_cases hge : (eeprom_read_config m (EEADR_SET_MENU_ITEM .dh) + 1) % 65536
      ≥ eeprom_read_config m (20 * p + 2 * s + 1)
  · by_cases hlast : s = 8 ∨ eeprom_read_config m (20 * p + 2 * s + 3) = 0
    · have hupd := update_profile_finish m p s hp hp5 hs hge hlast
      simp only [EEADR_SET_MENU_ITEM_eq, set_menu_enum.toNat, Nat.reduceAdd] at hst hdh ⊢
      rw [hupd]
      refine ⟨Or.inr ?_, ?_, ?_, ?_, ?_⟩
      · rw [eeprom_read_write_other _ _ _ _ (by omega), eeprom_read_write_same,
          Nat.mod_eq_of_lt hX, ← hnext']
        omega
      · rw [eeprom_read_write_other _ _ _ _ (by omega),
          eeprom_read_write_other _ _ _ _ (by omega), hst]
        exact hs8
      · rw [eeprom_read_write_other _ _ _ _ (by omega),
          eeprom_read_write_other _ _ _ _ (by omega)]
        exact hdh
      · rw [eeprom_read_write_same]
      · intro c h5 _ _ h12
        rw [hcells _ 112 _ c (by omega) h12, hcells _ 105 _ c (by omega) h5]
    · have hs7 : s < 8 := by omega
      have hupd := update_profile_advance m p s hp hp5 hs hs7 hge (by tauto)
      simp only [EEADR_SET_MENU_ITEM_eq, set_menu_enum.toNat, Nat.reduceAdd] at hrn ⊢
      rw [hupd]
      refine ⟨Or.inr ?_, ?_, ?_, ?_, ?_⟩
      · rw [eeprom_read_write_other _ _ _ _ (by omega),
          eeprom_read_write_other _ _ _ _ (by omega), eeprom_read_write_same,
          Nat.mod_eq_of_lt hX, ← hnext']
        omega
      · rw [eeprom_read_write_other _ _ _ _ (by omega), eeprom_read_write_same]
        omega
      · rw [eeprom_read_write_same]
        omega
      · rw [eeprom_read_write_other _ _ _ _ (by omega),
          eeprom_read_write_other _ _ _ _ (by omega),
          eeprom_read_write_other _ _ _ _ (by omega), hrn]
        omega
      · intro c h5 h6 h7 _
        rw [hcells _ 107 _ c (by omega) h7, hcells _ 106 _ c (by omega) h6,
          hcells _ 105 _ c (by omega) h5]
  · have hlt : (eeprom_read_config m (EEADR_SET_MENU_ITEM .dh) + 1) % 65536
        < eeprom_read_config m (20 * p + 2 * s + 1) := by omega
    by_cases hrp : eeprom_read_config m (EEADR_SET_MENU_ITEM .rP) = 0
    · have hupd := update_profile_hold m p s hp hp5 hs hlt hrp
      simp only [EEADR_SET_MENU_ITEM_eq, set_menu_enum.toNat, Nat.reduceAdd]
        at hst hrn hlt ⊢
      rw [hupd]
      refine ⟨Or.inl ?_, ?_, ?_, ?_, ?_⟩
      · rw [eeprom_read_write_other _ _ _ _ (by omega)]
      · rw [eeprom_read_write_other _ _ _ _ (by omega), hst]
        exact hs8
      · rw [eeprom_read_write_same]
        omega
      · rw [eeprom_read_write_other _ _ _ _ (by omega), hrn]
        omega
      · intro c _ _ h7 _
        rw [hcells _ 107 _ c (by omega) h7]
    · have hupd := update_profile_ramp m p s hp hp5 hs hlt hrp
      have hval := update_profile_ramp_values m p s
        ((eeprom_read_config m (EEADR_SET_MENU_ITEM .dh) + 1) % 65536)
        (eeprom_read_config m (EEADR_PROFILE_DURATION p s)) cur next hp hp5 hs rfl rfl
        hcur hnext (by rw [EEADR_PROFILE_DURATION_eq]; exact hlt)
        (by rw [EEADR_PROFILE_DURATION_eq]; exact hd) hrp
      rw [EEADR_PROFILE_DURATION_eq] at hval
      obtain ⟨hv, hdh'⟩ := hval
      have hbet := ramp_value_between
        (64 * ((eeprom_read_config m (EEADR_SET_MENU_ITEM .dh) + 1) % 65536)
          / eeprom_read_config m (20 * p + 2 * s + 1))
        (by
          have : 64 * ((eeprom_read_config m (EEADR_SET_MENU_ITEM .dh) + 1) % 65536)
              / eeprom_read_config m (20 * p + 2 * s + 1) < 64 :=
            Nat.div_lt_of_lt_mul (by nlinarith)
          omega) next cur
      rw [← hv] at hbet
      refine ⟨Or.inr ⟨hbet.1, hbet.2, ?_, ?_⟩, ?_, ?_, ?_, ?_⟩
      · have := hbet.1
        omega
      · have := hbet.2
        omega
      · simp only [EEADR_SET_MENU_ITEM_eq, set_menu_enum.toNat, Nat.reduceAdd] at hst ⊢
        rw [hupd, eeprom_read_write_other _ _ _ _ (by omega),
          eeprom_read_write_other _ _ _ _ (by omega), hst]
        exact hs8
      · rw [hdh']
        omega
      · simp only [EEADR_SET_MENU_ITEM_eq, set_menu_enum.toNat, Nat.reduceAdd] at hrn ⊢
        rw [hupd, eeprom_read_write_other _ _ _ _ (by omega),
          eeprom_read_write_other _ _ _ _ (by omega), hrn]
        omega
      · intro c h5 _ h7 _
        simp only [EEADR_SET_MENU_ITEM_eq, set_menu_enum.toNat, Nat.reduceAdd] at h5 h7
        rw [hupd, hcells _ 107 _ c (by omega) h7, hcells _ 105 _ c (by omega) h5]

/-- Witness for C28: the default image running profile 0 at step 0 with 23 hours
elapsed (all its setpoints are between 0 and 250, its durations at most 144). -/
theorem update_profile_writes_in_range_witness :
    eeprom_read_config (update_profile (eedata_running 0 23)) (EEADR_SET_MENU_ITEM .St) ≤ 8 ∧
    eeprom_read_config (update_profile (eedata_running 0 23)) (EEADR_SET_MENU_ITEM .dh) ≤ 999 ∧
    eeprom_read_config (update_profile (eedata_running 0 23)) (EEADR_SET_MENU_ITEM .rn) ≤ 5 :=
  have h := update_profile_writes_in_range (eedata_running 0 23) 0 0 160 170 (by decide)
    (by decide) (by decide) (by decide) (by decide) (by decide) (by decide) (by decide)
    (by decide)
  ⟨h.2.1, h.2.2.1, h.2.2.2.1⟩

/-! ## Monotonicity of the temperature conversion -/

theorem ad_lookup_step (b : Nat) (h1 : 1 ≤ b) (h30 : b ≤ 30) :
    ad_lookup.getD b 0 ≤ ad_lookup.getD (b + 1) 0 := by
  interval_cases b <;> decide

theorem ad_lookup_mono (i j : Nat) (h1 : 1 ≤ i) (hij : i ≤ j) (hj : j ≤ 31) :
    ad_lookup.getD i 0 ≤ ad_lookup.getD j 0 := by
  induction j with
  | zero => omega
  | succ k ih =>
    by_cases hk : i = k + 1
    · rw [hk]
    · exact le_trans (ih (by omega) (by omega)) (ad_lookup_step k (by omega) (by omega))

/-- The interpolated value for table index `b` and fraction `a`. -/
theorem ad_value_bounds (a b : Nat) (ha : a < 64) (h1 : 1 ≤ b) (h30 : b ≤ 30) :
    ad_lookup.getD b 0
      ≤ (32 + (64 - (a : Int)) * ad_lookup.getD b 0 + (a : Int) * ad_lookup.getD (b + 1) 0) / 64 ∧
    (32 + (64 - (a : Int)) * ad_lookup.getD b 0 + (a : Int) * ad_lookup.getD (b + 1) 0) / 64
      ≤ ad_lookup.getD (b + 1) 0 := by
  have hstep := ad_lookup_step b h1 h30
  have hbet := ramp_value_between a (by omega) (ad_lookup.getD (b + 1) 0) (ad_lookup.getD b 0)
  rw [min_eq_left hstep, max_eq_right hstep] at hbet
  have hform : (32 + (64 - (a : Int)) * ad_lookup.getD b 0 + (a : Int) * ad_lookup.getD (b + 1) 0)
      = 32 + (a : Int) * ad_lookup.getD (b + 1) 0 + (64 - (a : Int)) * ad_lookup.getD b 0 := by
    ring
  rw [hform]
  exact hbet

theorem ad_value_mono_a (a a' b : Nat) (haa : a ≤ a') (h1 : 1 ≤ b) (h30 : b ≤ 30) :
    (32 + (64 - (a : Int)) * ad_lookup.getD b 0 + (a : Int) * ad_lookup.getD (b + 1) 0) / 64
      ≤ (32 + (64 - (a' : Int)) * ad_lookup.getD b 0
          + (a' : Int) * ad_lookup.getD (b + 1) 0) / 64 := by
  have hstep := ad_lookup_step b h1 h30
  apply Int.ediv_le_ediv (by norm_num)
  have hcast : (a : Int) ≤ (a' : Int) := by exact_mod_cast haa
  nlinarith

/-- C30: with the Celsius table `ad_to_temp` is monotone non-decreasing over the
non-fault range: for all accumulators `x ≤ y` whose most-significant bytes both
lie in 9..247, both conversions have a result and the one of `x` is at most the
one of `y`. -/
theorem ad_to_temp_monotone (x y : Nat) (hxy : x ≤ y)
    (hx9 : 9 ≤ x >>> 8) (hx247 : x >>> 8 ≤ 247) (hy9 : 9 ≤ y >>> 8) (hy247 : y >>> 8 ≤ 247) :
    ∃ tx ty, ad_to_temp x = some tx ∧ ad_to_temp y = some ty ∧ tx ≤ ty := by
  simp only [Nat.shiftRight_eq_div_pow, Nat.reducePow] at hx9 hx247 hy9 hy247
  have hbx1 : 1 ≤ (x / 2048) % 32 := by omega
  have hbx30 : (x / 2048) % 32 ≤ 30 := by omega
  have hby1 : 1 ≤ (y / 2048) % 32 := by omega
  have hby30 : (y / 2048) % 32 ≤ 30 := by omega
  have hax : (x / 32) % 64 < 64 := Nat.mod_lt _ (by norm_num)
  have hay : (y / 32) % 64 < 64 := Nat.mod_lt _ (by norm_num)
  refine ⟨_, _, ad_to_temp_eq x hbx30, ad_to_temp_eq y hby30, ?_⟩
  by_cases hb : (x / 2048) % 32 = (y / 2048) % 32
  · rw [hb]
    exact ad_value_mono_a _ _ _ (by omega) hby1 hby30
  · have hlt : (x / 2048) % 32 + 1 ≤ (y / 2048) % 32 := by omega
    exact le_trans (ad_value_bounds _ _ hax hbx1 hbx30).2
      (le_trans (ad_lookup_mono _ _ (by omega) hlt (by omega))
        (ad_value_bounds _ _ hay hby1 hby30).1)

/-- Witness for C30: the start-up accumulator 0x7fff and the accumulator 0x8000. -/
theorem ad_to_temp_monotone_witness :
    ∃ tx ty, ad_to_temp 0x7fff = some tx ∧ ad_to_temp 0x8000 = some ty ∧ tx ≤ ty :=
  ad_to_temp_monotone 0x7fff 0x8000 (by decide) (by decide) (by decide) (by decide)
    (by decide)

/-! ## A tick with one relay on -/

/-- C31: in a control tick that starts with exactly one relay on and in which
the turn-off condition of that relay does not hold, both relay latches are left
as they were and each countdown is its previous value, decremented by one if it
was nonzero; and whatever the readings, a tick that starts with only the cool
relay on ends with the heat relay off, and a tick that starts with only the heat
relay on ends with the cool relay off. -/
theorem one_relay_on_frame (m : EEPROM) (temperature temperature2 : Int)
    (s : ThermostatState) (setpoint hysteresis2 : Int) (probe2 : Nat)
    (hsp : setpoint = toInt16 (eeprom_read_config m (EEADR_SET_MENU_ITEM .SP)))
    (hhy2 : hysteresis2 = toInt16 (eeprom_read_config m (EEADR_SET_MENU_ITEM .hy2)))
    (hpb : probe2 = eeprom_read_config m (EEADR_SET_MENU_ITEM .Pb) % 256)
    (hone :
      (s.LATA4 = true ∧ s.LATA5 = false ∧
        ¬ (temperature ≤ setpoint ∨
            (probe2 ≠ 0 ∧ temperature2 < sub16 setpoint hysteresis2))) ∨
      (s.LATA4 = false ∧ s.LATA5 = true ∧
        ¬ (temperature ≥ setpoint ∨
            (probe2 ≠ 0 ∧ temperature2 > add16 setpoint hysteresis2)))) :
    (temperature_control m temperature temperature2 s).LATA4 = s.LATA4 ∧
    (temperature_control m temperature temperature2 s).LATA5 = s.LATA5 ∧
    (temperature_control m temperature temperature2 s).cooling_delay
      = (if s.cooling_delay ≠ 0 then s.cooling_delay - 1 else s.cooling_delay) ∧
    (temperature_control m temperature temperature2 s).heating_delay
      = (if s.heating_delay ≠ 0 then s.heating_delay - 1 else s.heating_delay) ∧
    (∀ (r1 r2 : Int) (s' : ThermostatState), s'.LATA4 = true → s'.LATA5 = false →
      (temperature_control m r1 r2 s').LATA5 = false) ∧
    (∀ (r1 r2 : Int) (s' : ThermostatState), s'.LATA5 = true → s'.LATA4 = false →
      (temperature_control m r1 r2 s').LATA4 = false) := by
  subst hsp hhy2 hpb
  refine ⟨?_, ?_, ?_, ?_, ?_, ?_⟩
  · rcases s with ⟨c, h, cd, hd, ec, eh⟩
    simp only at hone
    unfold temperature_control
    rcases hone with ⟨h4, h5, hn⟩ | ⟨h4, h5, hn⟩ <;> subst h4 h5 <;> simp [hn]
  · rcases s with ⟨c, h, cd, hd, ec, eh⟩
    simp only at hone
    unfold temperature_control
    rcases hone with ⟨h4, h5, hn⟩ | ⟨h4, h5, hn⟩ <;> subst h4 h5 <;> simp [hn]
  · rcases s with ⟨c, h, cd, hd, ec, eh⟩
    simp only at hone
    unfold temperature_control
    rcases hone with ⟨h4, h5, hn⟩ | ⟨h4, h5, hn⟩ <;> subst h4 h5 <;> simp [hn]
  · rcases s with ⟨c, h, cd, hd, ec, eh⟩
    simp only at hone
    unfold temperature_control
    rcases hone with ⟨h4, h5, hn⟩ | ⟨h4, h5, hn⟩ <;> subst h4 h5 <;> simp [hn]
  · intro r1 r2 s' h4 h5
    rcases s' with ⟨c, h, cd, hd, ec, eh⟩
    simp only at h4 h5
    subst h4 h5
    unfold temperature_control
    simp only [dec_eq_pred]
    split_ifs <;> simp_all
  · intro r1 r2 s' h5 h4
    rcases s' with ⟨c, h, cd, hd, ec, eh⟩
    simp only at h4 h5
    subst h4 h5
    unfold temperature_control
    simp only [dec_eq_pred]
    split_ifs <;> simp_all

/-- Witness for C31 on the default image (setpoint 200): cooling on, reading1 = 230
above the setpoint, countdowns 3 and 0: the relays stay as they are and the
countdowns become 2 and 0. -/
theorem one_relay_on_frame_witness :
    (temperature_control (EEPROM.ofWords eedata) 230 0 ⟨true, false, 3, 0, false, true⟩).LATA4
      = true ∧
    (temperature_control (EEPROM.ofWords eedata) 230 0 ⟨true, false, 3, 0, false, true⟩).LATA5
      = false ∧
    (temperature_control (EEPROM.ofWords eedata) 230 0
      ⟨true, false, 3, 0, false, true⟩).cooling_delay = 2 ∧
    (temperature_control (EEPROM.ofWords eedata) 230 0
      ⟨true, false, 3, 0, false, true⟩).heating_delay = 0 :=
  have h := one_relay_on_frame (EEPROM.ofWords eedata) 230 0 ⟨true, false, 3, 0, false, true⟩
    200 50 0 (by decide) (by decide) (by decide) (Or.inl ⟨rfl, rfl, by decide⟩)
  ⟨h.1, h.2.1, h.2.2.1, h.2.2.2.1⟩

/-! ## The write commit: interrupt masking and the state between the two bytes -/

end STC1000P
